import Mathlib

/-!
Verification development for the proxypal usage-analytics subsystem
(src-tauri/src/helpers/history.rs, src-tauri/src/helpers/log_watcher.rs,
src-tauri/src/commands/usage.rs).

The Rust code is shallowly embedded: machine integers (u16, u32, u64)
become Nat (all arithmetic in the modelled paths is saturating-free
increments far below 2^64, and parse overflow is modelled explicitly);
fallible operations return Option or Except; in-place mutation becomes
explicit state passing.  Floating-point duration parsing is modelled with
exact decimal values (an integer mantissa and a power-of-ten scale); this
agrees with IEEE f64 evaluation on all inputs considered here.
-/

/-! ## String helpers mirroring the Rust standard library -/

/-- Rust str::ends_with, evaluated on the character lists (Lean's builtin
String.endsWith is byte-position based and does not reduce in the kernel). -/
def strEndsWith (s pat : String) : Bool :=
  pat.data.isSuffixOf s.data

/-- One step list model of Rust str::trim_end_matches with a string
pattern: repeatedly remove the pattern from the end.  Fuel-indexed to stay
structurally recursive; fuel equal to the string length always suffices
because each removal strips at least one character. -/
def stripSuffixFuel : Nat → List Char → List Char → List Char
  | 0, l, _ => l
  | Nat.succ n, l, pat =>
    if pat ≠ [] ∧ pat.isSuffixOf l then
      stripSuffixFuel n (l.take (l.length - pat.length)) pat
    else l

/-- Rust str::trim_end_matches: removes all successive occurrences of the
pattern from the end of the string. -/
def trim_end_matches (s pat : String) : String :=
  ⟨stripSuffixFuel (s.length + 1) s.data pat.data⟩

/-- Numeric value of a list of decimal digit characters. -/
def digitsToNat (l : List Char) : Nat :=
  l.foldl (fun a c => a * 10 + (c.toNat - '0'.toNat)) 0

/-- Rust u64::from_str: an optional leading plus sign followed by at least
one decimal digit; values exceeding u64::MAX are a parse error. -/
def parseU64 (s : String) : Option Nat :=
  let cs := match s.data with
    | '+' :: rest => rest
    | cs => cs
  if cs ≠ [] ∧ cs.all Char.isDigit then
    let n := digitsToNat cs
    if n < 2 ^ 64 then some n else none
  else none

/-- Value of a parsed f64 string, modelled exactly: a finite decimal
(num / 10 ^ pow10), an infinity, or NaN. -/
inductive FloatVal where
  | fin (num : Int) (pow10 : Nat)
  | inf
  | negInf
  | nan
deriving DecidableEq

/-- Split a leading run of decimal digits from a character list. -/
def spanDigits (l : List Char) : List Char × List Char :=
  (l.takeWhile Char.isDigit, l.dropWhile Char.isDigit)

/-- Parse the optional exponent part of a float literal: empty input means
exponent zero; otherwise e or E, an optional sign, and at least one
digit. Returns none when the remainder is not a wellformed exponent. -/
def parseExponent (l : List Char) : Option Int :=
  match l with
  | [] => some 0
  | e :: rest =>
    if e = 'e' ∨ e = 'E' then
      let (sgn, rest) := match rest with
        | '-' :: r => (true, r)
        | '+' :: r => (false, r)
        | r => (false, r)
      let (ds, rest) := spanDigits rest
      if ds ≠ [] ∧ rest = [] then
        some (if sgn then -(digitsToNat ds : Int) else (digitsToNat ds : Int))
      else none
    else none

/-- Mantissa of a float literal: digits, digits followed by a point and
optional digits, or a point followed by digits.  Returns the integer
formed by all mantissa digits, the number of fraction digits, and the
remaining characters. -/
def parseMantissa (l : List Char) : Option (Nat × Nat × List Char) :=
  let (intPart, rest) := spanDigits l
  match rest with
  | '.' :: rest2 =>
    let (fracPart, rest3) := spanDigits rest2
    if intPart = [] ∧ fracPart = [] then none
    else some (digitsToNat (intPart ++ fracPart), fracPart.length, rest3)
  | _ =>
    if intPart = [] then none
    else some (digitsToNat intPart, 0, rest)

/-- Rust f64::from_str over the documented grammar: optional sign, then
inf, infinity, nan (case-insensitive) or a decimal mantissa with optional
exponent.  Finite values are kept exact as num / 10 ^ pow10; a positive
exponent scales the mantissa, a negative one deepens the scale. -/
def parseF64 (s : String) : Option FloatVal :=
  let (neg, cs) := match s.data with
    | '-' :: rest => (true, rest)
    | '+' :: rest => (false, rest)
    | cs => (false, cs)
  let lower := (cs.map Char.toLower)
  if lower = "inf".data ∨ lower = "infinity".data then
    some (if neg then FloatVal.negInf else FloatVal.inf)
  else if lower = "nan".data then
    some FloatVal.nan
  else
    match parseMantissa cs with
    | none => none
    | some (m, fracLen, rest) =>
      match parseExponent rest with
      | none => none
      | some e =>
        let signedExp : Int := e - (fracLen : Int)
        let num : Int :=
          if 0 ≤ signedExp then (m : Int) * (10 : Int) ^ signedExp.toNat
          else (m : Int)
        let pow : Nat := if 0 ≤ signedExp then 0 else (-signedExp).toNat
        some (FloatVal.fin (if neg then -num else num) pow)

/-- Multiplication of a modelled float by 1000.0 (exact: 1000 is a power
of ten, so no rounding occurs in f64 either at the magnitudes involved in
log durations). -/
def floatMul1000 : FloatVal → FloatVal
  | FloatVal.fin n p => FloatVal.fin (n * 1000) p
  | FloatVal.inf => FloatVal.inf
  | FloatVal.negInf => FloatVal.negInf
  | FloatVal.nan => FloatVal.nan

/-- Rust saturating float-to-u64 cast (as u64): truncation toward zero,
negative values and NaN go to 0, values at or above 2^64 and positive
infinity go to u64::MAX. -/
def floatToU64 : FloatVal → Nat
  | FloatVal.fin n p =>
    if n ≤ 0 then 0
    else min (n.toNat / 10 ^ p) (2 ^ 64 - 1)
  | FloatVal.inf => 2 ^ 64 - 1
  | FloatVal.negInf => 0
  | FloatVal.nan => 0

/-- log_watcher.rs parse_duration: a trailing ms suffix is parsed as
integer milliseconds, otherwise a trailing s suffix is parsed as float
seconds and scaled by 1000, anything else is 0; parse failures default to
0 (unwrap_or). -/
def parse_duration (duration_str : String) : Nat :=
  if strEndsWith duration_str "ms" then
    (parseU64 (trim_end_matches duration_str "ms")).getD 0
  else if strEndsWith duration_str "s" then
    floatToU64 (floatMul1000 ((parseF64 (trim_end_matches duration_str "s")).getD (FloatVal.fin 0 0)))
  else 0


/-! ## Data model

Field layouts are taken from the uses in src-tauri (history.rs,
log_watcher.rs, usage.rs); the struct declarations live in the crate's
types module, described in spec section 3.  u64 counters become Nat, u32
token counts become Nat, the f64 cost becomes an exact rational. -/

structure TimeSeriesPoint where
  label : String
  value : Nat
deriving DecidableEq

structure ModelStats where
  requests : Nat
  success_count : Nat
  tokens : Nat
  input_tokens : Nat
  output_tokens : Nat
  cached_tokens : Nat
deriving DecidableEq

/-- ModelStats::default: all counters zero. -/
def ModelStats.zero : ModelStats := ⟨0, 0, 0, 0, 0, 0⟩

structure RequestLog where
  id : String
  timestamp : Nat
  provider : String
  model : String
  method : String
  path : String
  status : Nat
  duration_ms : Nat
  tokens_in : Option Nat
  tokens_out : Option Nat
  tokens_cached : Option Nat
deriving DecidableEq

structure Aggregate where
  total_requests : Nat
  total_success_count : Nat
  total_failure_count : Nat
  total_tokens_in : Nat
  total_tokens_out : Nat
  total_tokens_cached : Nat
  total_cost_usd : ℚ
  requests_by_day : List TimeSeriesPoint
  tokens_by_day : List TimeSeriesPoint
  requests_by_hour : List TimeSeriesPoint
  tokens_by_hour : List TimeSeriesPoint
  model_stats : List (String × ModelStats)
  provider_stats : List (String × ModelStats)
deriving DecidableEq

structure RequestHistory where
  requests : List RequestLog
  total_request_count : Nat
  total_success_count : Nat
  total_tokens_in : Nat
  total_tokens_out : Nat
  total_tokens_cached : Nat
  total_cost_usd : ℚ
  tokens_by_day : List TimeSeriesPoint
  tokens_by_hour : List TimeSeriesPoint
deriving DecidableEq

/-! ## Shared list helpers for the embedded operations -/

/-- The trimming idiom if len > n then split_off(len - n): keep the last
n elements when the list is longer than n, otherwise leave it unchanged. -/
def keep_last {α : Type} (n : Nat) (l : List α) : List α :=
  if l.length > n then l.drop (l.length - n) else l

/-- HashMap entry(k).or_insert(zero) followed by a mutation f: updates the
value at the first occurrence of the key, appending a fresh zero-based
entry when the key is absent. -/
def statsUpdate (m : List (String × ModelStats)) (k : String)
    (f : ModelStats → ModelStats) : List (String × ModelStats) :=
  match m with
  | [] => [(k, f ModelStats.zero)]
  | (k', v) :: rest =>
    if k' = k then (k', f v) :: rest else (k', v) :: statsUpdate rest k f

/-- history.rs update_timeseries: add the increment to the point carrying
the label if one exists, otherwise push a new point. -/
def update_timeseries (series : List TimeSeriesPoint) (label : String)
    (increment : Nat) : List TimeSeriesPoint :=
  match series with
  | [] => [⟨label, increment⟩]
  | p :: rest =>
    if p.label = label then ⟨p.label, p.value + increment⟩ :: rest
    else p :: update_timeseries rest label increment

/-- One step of the authoritative merge loops in usage.rs: overwrite the
value of the existing point with the same label, or push the new point. -/
def merge_point (series : List TimeSeriesPoint) (pt : TimeSeriesPoint) :
    List TimeSeriesPoint :=
  match series with
  | [] => [pt]
  | p :: rest =>
    if p.label = pt.label then ⟨p.label, pt.value⟩ :: rest
    else p :: merge_point rest pt

/-- The for point in pts loops of the authoritative merges: fold the
overwrite-or-append step over the payload points. -/
def merge_series_overwrite (series : List TimeSeriesPoint)
    (pts : List TimeSeriesPoint) : List TimeSeriesPoint :=
  pts.foldl merge_point series

/-- Value stored in a series at a label (first occurrence). -/
def lookupLabel (series : List TimeSeriesPoint) (label : String) : Option Nat :=
  match series with
  | [] => none
  | p :: rest => if p.label = label then some p.value else lookupLabel rest label

/-- Stable insertion for sorting by label. -/
def insertByLabel (p : TimeSeriesPoint) : List TimeSeriesPoint → List TimeSeriesPoint
  | [] => [p]
  | q :: rest =>
    if p.label ≤ q.label then p :: q :: rest else q :: insertByLabel p rest

/-- Rust sort_by(a.label.cmp(b.label)): a stable sort by label. -/
def sortByLabel (l : List TimeSeriesPoint) : List TimeSeriesPoint :=
  l.foldr insertByLabel []

/-! ## Persistence model (history.rs)

Disk state is a finite map from paths to file contents.  save_aggregate
and save_request_history are modelled at two levels: the sequence of file
operations they issue, and an execution relation over disk states that
includes crash points (a crash during a write leaves an arbitrary prefix
of the data; rename is atomic). -/

/-- A disk: association list from path to content. -/
def Disk := List (String × String)

instance : DecidableEq Disk := by
  unfold Disk
  infer_instance

/-- Content stored at a path. -/
def diskGet (fs : Disk) (p : String) : Option String :=
  match fs with
  | [] => none
  | (q, d) :: rest => if q = p then some d else diskGet rest p

/-- Store content at a path (overwrite or create). -/
def diskSet (fs : Disk) (p d : String) : Disk :=
  match fs with
  | [] => [(p, d)]
  | (q, e) :: rest => if q = p then (q, d) :: rest else (q, e) :: diskSet rest p d

/-- Remove a path. -/
def diskDel (fs : Disk) (p : String) : Disk :=
  match fs with
  | [] => []
  | (q, e) :: rest => if q = p then rest else (q, e) :: diskDel rest p

/-- A file operation issued by a save. -/
inductive FsOp where
  | write (path : String) (data : String)
  | rename (src : String) (dst : String)
deriving DecidableEq

/-- Effect of one completed file operation; rename moves the source file
over the destination. -/
def applyOp (fs : Disk) : FsOp → Disk
  | FsOp.write p d => diskSet fs p d
  | FsOp.rename src dst =>
    match diskGet fs src with
    | some d => diskDel (diskSet fs dst d) src
    | none => fs

/-- Rust Path::with_extension("json.tmp") on the aggregate path: drop the
text after the last dot and append the new extension. -/
def with_extension_json_tmp (p : String) : String :=
  let rev := p.data.reverse
  let stem := match rev.dropWhile (fun c => c ≠ '.') with
    | [] => p.data
    | _ :: restRev => restRev.reverse
  ⟨stem ++ ".json.tmp".data⟩

/-- history.rs save_aggregate: serialize, write the temporary sibling
file, then rename it over the canonical path. -/
def save_aggregate_ops (path : String) (data : String) : List FsOp :=
  [FsOp.write (with_extension_json_tmp path) data,
   FsOp.rename (with_extension_json_tmp path) path]

/-- history.rs save_request_history trims the request list to the last
500 entries before serializing (the cumulative counters are kept). -/
def save_request_history_trim (h : RequestHistory) : RequestHistory :=
  { h with requests := keep_last 500 h.requests }

/-- history.rs save_request_history: one direct std::fs::write of the
serialized trimmed history to the canonical history path. -/
def save_request_history_ops (path : String) (data : String) : List FsOp :=
  [FsOp.write path data]

/-- The atomic temp-write-then-rename discipline: the save issues exactly
a write of the payload to a temporary sibling followed by a rename of
that sibling over the canonical path. -/
def atomic_save_shape (ops : List FsOp) (canonical : String) : Prop :=
  ∃ tmp data, tmp ≠ canonical ∧
    ops = [FsOp.write tmp data, FsOp.rename tmp canonical]

/-- All disk states reachable if the process is interrupted while
executing the operations in order: before each operation, in the middle
of a write (the target holds an arbitrary prefix of the data), and after
the final operation.  Rename is atomic, so it has no intermediate state. -/
def crashStates (fs : Disk) : List FsOp → List Disk
  | [] => [fs]
  | op :: rest =>
    let mids := match op with
      | FsOp.write p d =>
        (List.range (d.length + 1)).map (fun k => diskSet fs p (⟨d.data.take k⟩ : String))
      | FsOp.rename _ _ => []
    fs :: mids ++ crashStates (applyOp fs op) rest

/-- Failure injection points of save_aggregate. -/
inductive SaveOutcome where
  | serializeFails
  | writeFails
  | renameFails
  | succeeds
deriving DecidableEq

/-- history.rs save_aggregate with failure injection: each map_err point
either returns the error (propagated to the caller) or proceeds.  A
failed write may leave junk in the temporary file; a failed rename leaves
the fully-written temporary in place.  The returned disk is the state
after the call. -/
def save_aggregate_run (fs : Disk) (path data : String) (junk : String) :
    SaveOutcome → Except String Unit × Disk
  | SaveOutcome.serializeFails => (Except.error "serialize failed", fs)
  | SaveOutcome.writeFails =>
    (Except.error "write failed", diskSet fs (with_extension_json_tmp path) junk)
  | SaveOutcome.renameFails =>
    (Except.error "rename failed", diskSet fs (with_extension_json_tmp path) data)
  | SaveOutcome.succeeds =>
    (Except.ok (), applyOp (applyOp fs (FsOp.write (with_extension_json_tmp path) data))
      (FsOp.rename (with_extension_json_tmp path) path))

/-! ## Tail-derived aggregate fold (log_watcher.rs) -/

/-- history.rs update_model_stats: normalize the model key, then bump the
request, success and token counters of its entry. -/
def update_model_stats (agg : Aggregate) (req : RequestLog) : Aggregate :=
  let model := if req.model = "" ∨ req.model = "unknown" then "unknown" else req.model
  { agg with
    model_stats := statsUpdate agg.model_stats model (fun e =>
      let e := { e with requests := e.requests + 1 }
      let e := if req.status < 400 then { e with success_count := e.success_count + 1 } else e
      { e with
        tokens := e.tokens + (req.tokens_in.getD 0 + req.tokens_out.getD 0),
        input_tokens := e.input_tokens + req.tokens_in.getD 0,
        output_tokens := e.output_tokens + req.tokens_out.getD 0,
        cached_tokens := e.cached_tokens + req.tokens_cached.getD 0 }) }

/-- history.rs update_provider_stats: like update_model_stats but keyed by
provider and without the per-kind token split. -/
def update_provider_stats (agg : Aggregate) (req : RequestLog) : Aggregate :=
  let provider := if req.provider = "" ∨ req.provider = "unknown" then "unknown" else req.provider
  { agg with
    provider_stats := statsUpdate agg.provider_stats provider (fun e =>
      let e := { e with requests := e.requests + 1 }
      let e := if req.status < 400 then { e with success_count := e.success_count + 1 } else e
      { e with tokens := e.tokens + (req.tokens_in.getD 0 + req.tokens_out.getD 0) }) }

/-- A save issued by the tail worker at the end of a processed event. -/
inductive SaveCall where
  | saveHistory (h : RequestHistory)
  | saveAgg (a : Aggregate)
deriving DecidableEq

/-- Result of processing one parsed event in the tail loop. -/
structure TailEffect where
  history : RequestHistory
  agg : Aggregate
  saves : List SaveCall
deriving DecidableEq

/-- The duplicate check of the tail loop (log_watcher.rs lines 339-341):
an entry with the same timestamp and path already sits in the history. -/
def is_dup_event (history : RequestHistory) (ev : RequestLog) : Bool :=
  history.requests.any (fun r => r.timestamp = ev.timestamp ∧ r.path = ev.path)

/-- log_watcher.rs start_log_watcher, body of the per-line branch after a
successful parse (lines 336-405): check the (timestamp, path) duplicate
against the loaded history; when new, fold the event into the aggregate
counters, day and hour series (hour series trimmed to 168), model and
provider stats, append it to the history trimmed to 500, and save both
files.  today and hour_label are the wall-clock bucket labels. -/
def tail_process_event (today hour_label : String) (history : RequestHistory)
    (agg : Aggregate) (ev : RequestLog) : TailEffect :=
  if is_dup_event history ev then ⟨history, agg, []⟩
  else
    let agg := { agg with total_requests := agg.total_requests + 1 }
    let agg :=
      if ev.status < 400 then
        { agg with total_success_count := agg.total_success_count + 1 }
      else
        { agg with total_failure_count := agg.total_failure_count + 1 }
    let agg := { agg with
      total_tokens_in := agg.total_tokens_in + ev.tokens_in.getD 0,
      total_tokens_out := agg.total_tokens_out + ev.tokens_out.getD 0,
      total_tokens_cached := agg.total_tokens_cached + ev.tokens_cached.getD 0 }
    let tokens := ev.tokens_in.getD 0 + ev.tokens_out.getD 0
    let agg := { agg with requests_by_day := update_timeseries agg.requests_by_day today 1 }
    let agg := { agg with tokens_by_day := update_timeseries agg.tokens_by_day today tokens }
    let agg := { agg with requests_by_hour := update_timeseries agg.requests_by_hour hour_label 1 }
    let agg := { agg with tokens_by_hour := update_timeseries agg.tokens_by_hour hour_label tokens }
    let agg := { agg with requests_by_hour := keep_last 168 agg.requests_by_hour }
    let agg := { agg with tokens_by_hour := keep_last 168 agg.tokens_by_hour }
    let agg := update_model_stats agg ev
    let agg := update_provider_stats agg ev
    let history := { history with requests := keep_last 500 (history.requests ++ [ev]) }
    ⟨history, agg,
     [SaveCall.saveHistory (save_request_history_trim history), SaveCall.saveAgg agg]⟩

/-! ## Authoritative sync (commands/usage.rs)

The proxy's usage endpoint is an external collaborator; its parsed JSON
body is modelled structurally at exactly the granularity the Rust code
inspects it.  An absent object field and an empty object produce the same
loop behaviour, so optional containers are modelled as lists. -/

/-- The tokens field of one usage detail: absent, present but not an
object (every numeric get then yields 0), or an object with the three
token counts (absent counts already defaulted to 0 by as_u64/unwrap_or). -/
inductive TokenField where
  | missing
  | notObject
  | obj (input_tokens : Nat) (output_tokens : Nat) (cached_tokens : Nat)
deriving DecidableEq

structure UsageDetail where
  tokens : TokenField
deriving DecidableEq

/-- One model entry of the usage payload; numeric fields are already
defaulted to 0 as the code does with as_u64().unwrap_or(0). -/
structure ModelData where
  total_requests : Nat
  total_tokens : Nat
  details : List UsageDetail
deriving DecidableEq

structure ApiData where
  models : List (String × ModelData)
deriving DecidableEq

/-- The usage object; series maps carry Option values because entries
whose value is not a u64 are skipped by the parsing loops. -/
structure UsagePayload where
  apis : List (String × ApiData)
  tokens_by_day : List (String × Option Nat)
  tokens_by_hour : List (String × Option Nat)
  requests_by_day : List (String × Option Nat)
  requests_by_hour : List (String × Option Nat)
deriving DecidableEq

/-- The JSON body of the usage response: the usage key may be absent. -/
structure SyncBody where
  usage : Option UsagePayload
deriving DecidableEq

/-- Outcome of the HTTP GET against the usage endpoint: a network error,
or a response with a status code and either a parsed JSON body or a JSON
parse failure (none). -/
inductive HttpOutcome where
  | netError
  | response (status : Nat) (body : Option SyncBody)
deriving DecidableEq

/-- reqwest StatusCode::is_success: 2xx. -/
def is_success_status (status : Nat) : Bool :=
  200 ≤ status ∧ status < 300

/-- Token triple read through detail.get("tokens") alone: a non-object
tokens value still counts, with every component defaulted to 0. -/
def detailCounts : TokenField → Option (Nat × Nat × Nat)
  | TokenField.missing => none
  | TokenField.notObject => some (0, 0, 0)
  | TokenField.obj i o c => some (i, o, c)

/-- Token triple read through detail.get("tokens").and_then(as_object):
only an object form counts. -/
def detailObjCounts : TokenField → Option (Nat × Nat × Nat)
  | TokenField.obj i o c => some (i, o, c)
  | _ => none

/-- Generic HashMap entry(k).or_insert(dflt) then mutate. -/
def alistUpdate {β : Type} (dflt : β) (m : List (String × β)) (k : String)
    (f : β → β) : List (String × β) :=
  match m with
  | [] => [(k, f dflt)]
  | (k', v) :: rest =>
    if k' = k then (k', f v) :: rest else (k', v) :: alistUpdate dflt rest k f

/-- The series-parsing loops of usage.rs: keep the entries with u64
values, normalize two-character hour keys to todayTHH when asked, and
sort by label. -/
def parseSeries (today : String) (normalizeHour : Bool)
    (entries : List (String × Option Nat)) : List TimeSeriesPoint :=
  sortByLabel (entries.foldr (fun e acc =>
    match e.2 with
    | none => acc
    | some v =>
      ⟨if normalizeHour ∧ e.1.length = 2 then today ++ "T" ++ e.1 else e.1, v⟩ :: acc) [])

/-- First pass of sync_usage_from_proxy over usage.apis: sum input,
output and cached tokens over every detail (lines 714-750) and build the
per-model (count, input, output, cached) map used for the cost estimate. -/
def async_totals (apis : List (String × ApiData)) :
    Nat × Nat × Nat × List (String × (Nat × Nat × Nat × Nat)) :=
  apis.foldl (fun acc api =>
    api.2.models.foldl (fun acc m =>
      m.2.details.foldl (fun acc d =>
        match detailCounts d.tokens with
        | none => acc
        | some (i, o, c) =>
          (acc.1 + i, acc.2.1 + o, acc.2.2.1 + c,
           alistUpdate (0, 0, 0, 0) acc.2.2.2 m.1 (fun e =>
             (e.1 + 1, e.2.1 + i, e.2.2.1 + o, e.2.2.2 + c)))) acc) acc)
    (0, 0, 0, [])

/-- Cost fold of sync_usage_from_proxy (lines 753-756), parametrized by
the estimate_request_cost function from the utils module. -/
def async_cost (est : String → Nat → Nat → ℚ)
    (mstats : List (String × (Nat × Nat × Nat × Nat))) : ℚ :=
  mstats.foldl (fun s e => s + est e.1 e.2.2.1 e.2.2.2.1) 0

/-- Per-model replacement stats of the second apis pass of
sync_usage_from_proxy (lines 944-997): requests and successes from
total_requests, tokens from total_tokens, token split summed over details
whose tokens field is an object. -/
def modelReplaceStats (md : ModelData) : ModelStats :=
  let sums := md.details.foldl (fun acc d =>
    match detailObjCounts d.tokens with
    | none => acc
    | some (i, o, c) => (acc.1 + i, acc.2.1 + o, acc.2.2 + c))
    ((0 : Nat), (0 : Nat), (0 : Nat))
  { requests := md.total_requests, success_count := md.total_requests,
    tokens := md.total_tokens, input_tokens := sums.1,
    output_tokens := sums.2.1, cached_tokens := sums.2.2 }

/-- One model entry replacement of the second apis pass. -/
def replaceModelEntry (agg : Aggregate) (m : String × ModelData) : Aggregate :=
  { agg with model_stats :=
      (alistUpdate ModelStats.zero agg.model_stats m.1
        (fun _ => modelReplaceStats m.2)) }

/-- The second apis pass itself: every model of the payload has its
aggregate entry fully replaced. -/
def sync_model_stats_replace (agg : Aggregate)
    (apis : List (String × ApiData)) : Aggregate :=
  apis.foldl (fun agg api => api.2.models.foldl replaceModelEntry agg) agg

/-- Aggregate half of sync_usage_from_proxy (usage.rs lines 861-1007):
assign the synced token totals and cost, merge the four series with
overwrite semantics (hour series trimmed to 168 after the merge), apply
the guarded total_requests and total_success_count updates, replace the
per-model stats from the payload and finally assign total_tokens_cached. -/
def sync_merge_aggregate (agg : Aggregate) (apis : List (String × ApiData))
    (total_input total_output total_cached : Nat) (total_cost : ℚ)
    (tokens_by_day tokens_by_hour requests_by_day requests_by_hour : List TimeSeriesPoint) :
    Aggregate :=
  let agg := { agg with
    total_tokens_in := total_input,
    total_tokens_out := total_output,
    total_cost_usd := total_cost }
  let agg := { agg with
    tokens_by_day := sortByLabel (merge_series_overwrite agg.tokens_by_day tokens_by_day) }
  let agg := { agg with
    requests_by_day := sortByLabel (merge_series_overwrite agg.requests_by_day requests_by_day) }
  let agg := { agg with
    requests_by_hour := keep_last 168 (sortByLabel (merge_series_overwrite agg.requests_by_hour requests_by_hour)) }
  let agg := { agg with
    tokens_by_hour := keep_last 168 (sortByLabel (merge_series_overwrite agg.tokens_by_hour tokens_by_hour)) }
  let agg :=
    if requests_by_day ≠ [] then
      let proxy_total : Nat := (requests_by_day.map (fun p => p.value)).sum
      if proxy_total > agg.total_requests then
        { agg with total_requests := proxy_total }
      else agg
    else agg
  let agg := sync_model_stats_replace agg apis
  let synced_success : Nat := (agg.model_stats.map (fun e => e.2.success_count)).sum
  let agg :=
    if synced_success > agg.total_success_count then
      { agg with total_success_count := synced_success }
    else agg
  { agg with total_tokens_cached := total_cached }

/-- Result of the sync_usage_from_proxy command: the value returned to
the invoking frontend, and the two files as left on disk. -/
structure SyncResult where
  ret : Except String RequestHistory
  history_file : RequestHistory
  aggregate_file : Aggregate

/-- usage.rs sync_usage_from_proxy (lines 673-1010): fetch the usage
report, bail out with an error on network failure, non-success status,
JSON parse failure or a missing usage field (nothing written in any of
those cases), otherwise recompute the history totals and series from the
payload, save the history, merge the payload into the aggregate with
overwrite semantics, apply the guarded total updates, save the aggregate
and return the updated history.  today is the wall-clock date label, est
the estimate_request_cost function from the utils module.  File writes
are modelled as the files in the returned state; an injected I/O failure
of the saves themselves is out of scope here. -/
def sync_usage_from_proxy (today : String) (est : String → Nat → Nat → ℚ)
    (resp : HttpOutcome) (history : RequestHistory) (agg : Aggregate) :
    SyncResult :=
  match resp with
  | HttpOutcome.netError =>
    ⟨Except.error "Failed to fetch usage. Is the proxy running?", history, agg⟩
  | HttpOutcome.response status body =>
    if ¬ is_success_status status then
      ⟨Except.error "Usage API returned status", history, agg⟩
    else
      match body with
      | none => ⟨Except.error "Failed to parse usage response", history, agg⟩
      | some b =>
        match b.usage with
        | none => ⟨Except.error "Missing usage field in response", history, agg⟩
        | some usage =>
          let t := async_totals usage.apis
          let total_input := t.1
          let total_output := t.2.1
          let total_cached := t.2.2.1
          let total_cost := async_cost est t.2.2.2
          let tokens_by_day := keep_last 14 (parseSeries today false usage.tokens_by_day)
          let tokens_by_hour := keep_last 168 (parseSeries today true usage.tokens_by_hour)
          let requests_by_day := keep_last 14 (parseSeries today false usage.requests_by_day)
          let requests_by_hour := keep_last 168 (parseSeries today true usage.requests_by_hour)
          let history := { history with
            total_tokens_in := total_input,
            total_tokens_out := total_output,
            total_tokens_cached := total_cached,
            total_cost_usd := total_cost,
            tokens_by_day := tokens_by_day,
            tokens_by_hour := tokens_by_hour }
          let agg := sync_merge_aggregate agg usage.apis total_input total_output
            total_cached total_cost tokens_by_day tokens_by_hour requests_by_day
            requests_by_hour
          ⟨Except.ok history, history, agg⟩

/-- Result of sync_usage_from_proxy_blocking: the function returns unit,
so ret carries no failure information; saved records whether the merged
aggregate was written. -/
structure BlockingSyncResult where
  ret : Unit
  saved : Bool
  aggregate_file : Aggregate

/-- First apis pass of the blocking sync (usage.rs lines 229-278): sum
total_requests over every model and accumulate per-model stats, the token
split summed over details whose tokens field is present. -/
def blocking_totals (apis : List (String × ApiData)) :
    Nat × List (String × ModelStats) :=
  apis.foldl (fun acc api =>
    api.2.models.foldl (fun acc m =>
      let mr := m.2.total_requests
      let mt := m.2.total_tokens
      (acc.1 + mr,
       alistUpdate ModelStats.zero acc.2 m.1 (fun e =>
         let e := { e with requests := e.requests + mr,
                           tokens := e.tokens + mt,
                           success_count := e.success_count + mr }
         m.2.details.foldl (fun e d =>
           match detailCounts d.tokens with
           | none => e
           | some (i, o, c) =>
             { e with input_tokens := e.input_tokens + i,
                      output_tokens := e.output_tokens + o,
                      cached_tokens := e.cached_tokens + c }) e))) acc)
    (0, [])

/-- One local-model-stats assignment of the blocking sync (usage.rs
lines 345-356): the aggregate entry is fully replaced by the locally
accumulated stats. -/
def assignModelEntry (agg : Aggregate) (s : String × ModelStats) : Aggregate :=
  { agg with model_stats :=
      (alistUpdate ModelStats.zero agg.model_stats s.1 (fun _ => s.2)) }

/-- Aggregate merge of the blocking sync (usage.rs lines 281-367). -/
def blocking_merge_aggregate (agg : Aggregate)
    (total_requests : Nat) (mstats : List (String × ModelStats))
    (tokens_by_day tokens_by_hour requests_by_day requests_by_hour : List TimeSeriesPoint) :
    Aggregate :=
  let agg := { agg with
    tokens_by_day := sortByLabel (merge_series_overwrite agg.tokens_by_day tokens_by_day) }
  let agg := { agg with
    tokens_by_hour := keep_last 168 (sortByLabel (merge_series_overwrite agg.tokens_by_hour tokens_by_hour)) }
  let agg := { agg with
    requests_by_day := sortByLabel (merge_series_overwrite agg.requests_by_day requests_by_day) }
  let agg := { agg with
    requests_by_hour := keep_last 168 (sortByLabel (merge_series_overwrite agg.requests_by_hour requests_by_hour)) }
  let agg := mstats.foldl assignModelEntry agg
  let agg :=
    if total_requests > agg.total_requests then
      { agg with total_requests := total_requests }
    else agg
  let synced_success : Nat := (agg.model_stats.map (fun e => e.2.success_count)).sum
  if synced_success > agg.total_success_count then
    { agg with total_success_count := synced_success }
  else agg

/-- usage.rs sync_usage_from_proxy_blocking (lines 138-368): every
failure (network, non-success status, JSON parse, missing usage field)
returns silently without touching the aggregate; otherwise the payload
series are merged with overwrite semantics (hour series trimmed to 168),
the per-model stats are replaced from the locally accumulated map, the
guarded total updates run and the aggregate is saved. -/
def sync_usage_from_proxy_blocking (today : String) (resp : HttpOutcome)
    (agg : Aggregate) : BlockingSyncResult :=
  match resp with
  | HttpOutcome.netError => ⟨(), false, agg⟩
  | HttpOutcome.response status body =>
    if ¬ is_success_status status then ⟨(), false, agg⟩
    else
      match body with
      | none => ⟨(), false, agg⟩
      | some b =>
        match b.usage with
        | none => ⟨(), false, agg⟩
        | some usage =>
          let tokens_by_day := parseSeries today false usage.tokens_by_day
          let tokens_by_hour := parseSeries today true usage.tokens_by_hour
          let requests_by_day := parseSeries today false usage.requests_by_day
          let requests_by_hour := parseSeries today true usage.requests_by_hour
          let t := blocking_totals usage.apis
          let agg := blocking_merge_aggregate agg t.1 t.2 tokens_by_day
            tokens_by_hour requests_by_day requests_by_hour
          ⟨(), true, agg⟩

/-- usage.rs add_request_to_history (lines 627-661): fold the request's
tokens and estimated cost into the history totals, append the request
unless an entry with the same id already exists, trim to 500, save. -/
def add_request_to_history (est : String → Nat → Nat → ℚ)
    (history : RequestHistory) (request : RequestLog) :
    RequestHistory × RequestLog :=
  let tokens_in := request.tokens_in.getD 0
  let tokens_out := request.tokens_out.getD 0
  let cost := est request.model tokens_in tokens_out
  let tokens_cached := request.tokens_cached.getD 0
  let history := { history with
    total_tokens_in := history.total_tokens_in + tokens_in,
    total_tokens_out := history.total_tokens_out + tokens_out,
    total_tokens_cached := history.total_tokens_cached + tokens_cached,
    total_cost_usd := history.total_cost_usd + cost }
  let history :=
    if ¬ history.requests.any (fun r => r.id = request.id) then
      { history with requests := keep_last 500 (history.requests ++ [request]) }
    else history
  (history, request)

/-! ## Provider resolution (log_watcher.rs lines 164-170 and 228-234) -/

/-- Rust str::contains with a string pattern. -/
def strContains (s pat : String) : Bool :=
  s.data.tails.any (fun t => pat.data.isPrefixOf t)

/-- The provider-resolution expression shared by both parser branches of
parse_gin_log_line: model-based detection first; only when it yields
unknown is path-based detection consulted, defaulting to unknown.  The
two detectors live in the crate's utils module and are taken as
parameters. -/
def resolve_provider (dm : String → String) (dp : String → Option String)
    (model path : String) : String :=
  let model_provider := dm model
  if model_provider ≠ "unknown" then model_provider
  else (dp path).getD "unknown"

/-- Modelled from the spec: detect_provider_from_model of the utils
module (absent from the sources at hand) maps vendor-specific model-name
fragments to a provider tag, unknown otherwise; the spec names the
claude-to-anthropic and gpt-to-openai classes. -/
def spec_detect_provider_from_model (model : String) : String :=
  if strContains model "claude" then "anthropic"
  else if strContains model "gpt" then "openai"
  else if strContains model "gemini" then "gemini"
  else "unknown"

/-- Modelled from the spec: detect_provider_from_path of the utils module
(absent from the sources at hand) recognizes provider fragments embedded
in the request path. -/
def spec_detect_provider_from_path (path : String) : Option String :=
  if strContains path "anthropic" then some "anthropic"
  else if strContains path "openai" then some "openai"
  else if strContains path "gemini" then some "gemini"
  else none


/-! ## Failure classification and concrete fixtures -/

/-- The failure modes enumerated by the spec for an authoritative sync:
network error, non-success HTTP status, malformed JSON body, or a body
without the usage field. -/
def sync_request_failed (resp : HttpOutcome) : Bool :=
  match resp with
  | HttpOutcome.netError => true
  | HttpOutcome.response status body =>
    if ¬ is_success_status status then true
    else
      match body with
      | none => true
      | some b => b.usage.isNone

/-- A cost estimator for concrete runs (the real estimate_request_cost
lives in the utils module and is a parameter throughout). -/
def zeroCost : String → Nat → Nat → ℚ := fun _ _ _ => 0

/-- A concrete parsed request event. -/
def exEvent : RequestLog :=
  { id := "req_1700000000000_0", timestamp := 1700000000000, provider := "openai",
    model := "gpt-5", method := "POST", path := "/v1/chat/completions",
    status := 200, duration_ms := 1200, tokens_in := none, tokens_out := none,
    tokens_cached := none }

/-- The same observation delivered again with a fresh id: identical
timestamp and path, different id. -/
def exEventOtherId : RequestLog :=
  { exEvent with id := "req_1700000000000_1" }

/-- A history already holding exEvent. -/
def exHistory : RequestHistory :=
  { requests := [exEvent], total_request_count := 1, total_success_count := 1,
    total_tokens_in := 0, total_tokens_out := 0, total_tokens_cached := 0,
    total_cost_usd := 0, tokens_by_day := [], tokens_by_hour := [] }

/-- An empty history. -/
def emptyHistory : RequestHistory :=
  { requests := [], total_request_count := 0, total_success_count := 0,
    total_tokens_in := 0, total_tokens_out := 0, total_tokens_cached := 0,
    total_cost_usd := 0, tokens_by_day := [], tokens_by_hour := [] }

/-- A concrete aggregate with large token totals accumulated earlier. -/
def exAgg : Aggregate :=
  { total_requests := 7, total_success_count := 6, total_failure_count := 1,
    total_tokens_in := 100, total_tokens_out := 100, total_tokens_cached := 100,
    total_cost_usd := 0, requests_by_day := [⟨"2025-01-01", 5⟩],
    tokens_by_day := [], requests_by_hour := [], tokens_by_hour := [],
    model_stats := [], provider_stats := [] }

/-- A concrete authoritative payload reporting smaller token totals than
exAgg already holds. -/
def exPayload : UsagePayload :=
  { apis := [("claude-api",
      ⟨[("claude-x",
        { total_requests := 1, total_tokens := 5,
          details := [⟨TokenField.obj 5 0 0⟩] })]⟩)],
    tokens_by_day := [], tokens_by_hour := [],
    requests_by_day := [("2025-01-01", some 8)], requests_by_hour := [] }

/-- The successful HTTP outcome carrying exPayload. -/
def exOkResponse : HttpOutcome :=
  HttpOutcome.response 200 (some ⟨some exPayload⟩)

/-! ## Lemmas about the list helpers -/

theorem length_keep_last_le {α : Type} (n : Nat) (l : List α) :
    (keep_last n l).length ≤ n := by
  unfold keep_last
  split <;> rename_i h
  · simp only [List.length_drop]
    omega
  · omega

theorem length_merge_point_ge (s : List TimeSeriesPoint) (pt : TimeSeriesPoint) :
    s.length ≤ (merge_point s pt).length := by
  induction s with
  | nil => simp [merge_point]
  | cons p rest ih =>
    simp only [merge_point]
    split
    · simp
    · simpa using Nat.succ_le_succ ih

theorem length_merge_series_ge (pts s : List TimeSeriesPoint) :
    s.length ≤ (merge_series_overwrite s pts).length := by
  induction pts generalizing s with
  | nil => simp [merge_series_overwrite]
  | cons pt rest ih =>
    calc s.length ≤ (merge_point s pt).length := length_merge_point_ge s pt
    _ ≤ _ := by simpa [merge_series_overwrite] using ih (merge_point s pt)

theorem length_insertByLabel (p : TimeSeriesPoint) (l : List TimeSeriesPoint) :
    (insertByLabel p l).length = l.length + 1 := by
  induction l with
  | nil => simp [insertByLabel]
  | cons q rest ih =>
    simp only [insertByLabel]
    split
    · simp
    · simp [ih]

theorem length_sortByLabel (l : List TimeSeriesPoint) :
    (sortByLabel l).length = l.length := by
  induction l with
  | nil => simp [sortByLabel]
  | cons p rest ih =>
    simp [sortByLabel, length_insertByLabel] at *
    omega

theorem length_update_timeseries_ge (s : List TimeSeriesPoint) (label : String)
    (inc : Nat) : s.length ≤ (update_timeseries s label inc).length := by
  induction s with
  | nil => simp [update_timeseries]
  | cons p rest ih =>
    simp only [update_timeseries]
    split
    · simp
    · simpa using Nat.succ_le_succ ih

theorem lookupLabel_update_timeseries (s : List TimeSeriesPoint) (label : String)
    (inc : Nat) :
    lookupLabel (update_timeseries s label inc) label
      = some ((lookupLabel s label).getD 0 + inc) := by
  induction s with
  | nil => simp [update_timeseries, lookupLabel]
  | cons p rest ih =>
    simp only [update_timeseries]
    split <;> rename_i h
    · simp [lookupLabel, h]
    · simp [lookupLabel, h, ih]

theorem lookupLabel_merge_point_self (s : List TimeSeriesPoint) (pt : TimeSeriesPoint) :
    lookupLabel (merge_point s pt) pt.label = some pt.value := by
  induction s with
  | nil => simp [merge_point, lookupLabel]
  | cons p rest ih =>
    simp only [merge_point]
    split <;> rename_i h
    · simp [lookupLabel, h]
    · simp [lookupLabel, h, ih]

theorem lookupLabel_merge_point_ne (s : List TimeSeriesPoint) (pt : TimeSeriesPoint)
    (label : String) (h : label ≠ pt.label) :
    lookupLabel (merge_point s pt) label = lookupLabel s label := by
  induction s with
  | nil => simp [merge_point, lookupLabel, Ne.symm h]
  | cons p rest ih =>
    simp only [merge_point]
    split <;> rename_i hp
    · rw [← hp] at h
      simp [lookupLabel, h, Ne.symm h]
    · by_cases hl : p.label = label
      · simp [lookupLabel, hl]
      · simp [lookupLabel, hl, ih]

theorem lookupLabel_merge_series_not_mem (pts s : List TimeSeriesPoint)
    (label : String) (h : ∀ pt ∈ pts, label ≠ pt.label) :
    lookupLabel (merge_series_overwrite s pts) label = lookupLabel s label := by
  induction pts generalizing s with
  | nil => simp [merge_series_overwrite]
  | cons pt rest ih =>
    have h1 : label ≠ pt.label := h pt (by simp)
    have h2 : ∀ q ∈ rest, label ≠ q.label := fun q hq => h q (by simp [hq])
    calc lookupLabel (merge_series_overwrite s (pt :: rest)) label
        = lookupLabel (merge_series_overwrite (merge_point s pt) rest) label := by
          simp [merge_series_overwrite]
      _ = lookupLabel (merge_point s pt) label := ih (merge_point s pt) h2
      _ = lookupLabel s label := lookupLabel_merge_point_ne s pt label h1

theorem lookupLabel_merge_series (pts s : List TimeSeriesPoint) (pt : TimeSeriesPoint)
    (hnd : (pts.map TimeSeriesPoint.label).Nodup) (hm : pt ∈ pts) :
    lookupLabel (merge_series_overwrite s pts) pt.label = some pt.value := by
  induction pts generalizing s with
  | nil => cases hm
  | cons q rest ih =>
    have hstep : merge_series_overwrite s (q :: rest)
        = merge_series_overwrite (merge_point s q) rest := by
      simp [merge_series_overwrite]
    have hnd' : (∀ x ∈ rest, ¬ x.label = q.label) ∧
        (List.map TimeSeriesPoint.label rest).Nodup := by simpa using hnd
    rcases List.mem_cons.mp hm with heq | hmem
    · subst heq
      have hnot : ∀ r ∈ rest, pt.label ≠ r.label := by
        intro r hr hlab
        exact hnd'.1 r hr hlab.symm
      rw [hstep, lookupLabel_merge_series_not_mem rest (merge_point s pt) pt.label hnot]
      exact lookupLabel_merge_point_self s pt
    · rw [hstep]
      exact ih (merge_point s q) hnd'.2 hmem

/-! ## Lemmas about the disk model -/

theorem diskGet_set_self (fs : Disk) (p d : String) :
    diskGet (diskSet fs p d) p = some d := by
  induction fs with
  | nil => simp [diskSet, diskGet]
  | cons kv rest ih =>
    obtain ⟨q, e⟩ := kv
    simp only [diskSet]
    split <;> rename_i h
    · simp [diskGet, h]
    · simp [diskGet, h, ih]

theorem diskGet_set_ne (fs : Disk) (p q d : String) (h : q ≠ p) :
    diskGet (diskSet fs q d) p = diskGet fs p := by
  induction fs with
  | nil => simp [diskSet, diskGet, h]
  | cons kv rest ih =>
    obtain ⟨r, e⟩ := kv
    simp only [diskSet]
    split <;> rename_i hr
    · subst hr
      simp [diskGet, h]
    · by_cases hp : r = p
      · simp [diskGet, hp]
      · simp [diskGet, hp, ih]

theorem diskGet_del_ne (fs : Disk) (p q : String) (h : q ≠ p) :
    diskGet (diskDel fs q) p = diskGet fs p := by
  induction fs with
  | nil => simp [diskDel]
  | cons kv rest ih =>
    obtain ⟨r, e⟩ := kv
    simp only [diskDel]
    split <;> rename_i hr
    · subst hr
      simp [diskGet, h]
    · by_cases hp : r = p
      · simp [diskGet, hp]
      · simp [diskGet, hp, ih]

/-! ## Projection lemmas for the aggregate updates that only touch the
stat maps -/

theorem foldl_model_stats_only {α : Type} (step : Aggregate → α → Aggregate)
    (hstep : ∀ agg a, step agg a = { agg with model_stats := (step agg a).model_stats })
    (l : List α) (agg : Aggregate) :
    l.foldl step agg = { agg with model_stats := (l.foldl step agg).model_stats } := by
  induction l generalizing agg with
  | nil => rfl
  | cons a rest ih =>
    simp only [List.foldl_cons]
    rw [ih (step agg a)]
    rw [hstep agg a]

theorem sync_model_stats_replace_only (agg : Aggregate)
    (apis : List (String × ApiData)) :
    sync_model_stats_replace agg apis
      = { agg with model_stats := (sync_model_stats_replace agg apis).model_stats } := by
  unfold sync_model_stats_replace
  exact foldl_model_stats_only _
    (fun agg api => foldl_model_stats_only replaceModelEntry (fun _ _ => rfl) _ agg)
    apis agg

theorem assign_stats_only (mstats : List (String × ModelStats)) (agg : Aggregate) :
    mstats.foldl assignModelEntry agg
      = { agg with model_stats := (mstats.foldl assignModelEntry agg).model_stats } :=
  foldl_model_stats_only assignModelEntry (fun _ _ => rfl) mstats agg

/-! ## Field projections through the stat-map updates (simp support) -/

@[simp] theorem ums_total_requests (agg : Aggregate) (req : RequestLog) :
    (update_model_stats agg req).total_requests = agg.total_requests := rfl

@[simp] theorem ums_total_success_count (agg : Aggregate) (req : RequestLog) :
    (update_model_stats agg req).total_success_count = agg.total_success_count := rfl

@[simp] theorem ums_total_failure_count (agg : Aggregate) (req : RequestLog) :
    (update_model_stats agg req).total_failure_count = agg.total_failure_count := rfl

@[simp] theorem ums_total_tokens_in (agg : Aggregate) (req : RequestLog) :
    (update_model_stats agg req).total_tokens_in = agg.total_tokens_in := rfl

@[simp] theorem ums_total_tokens_out (agg : Aggregate) (req : RequestLog) :
    (update_model_stats agg req).total_tokens_out = agg.total_tokens_out := rfl

@[simp] theorem ums_total_tokens_cached (agg : Aggregate) (req : RequestLog) :
    (update_model_stats agg req).total_tokens_cached = agg.total_tokens_cached := rfl

@[simp] theorem ums_total_cost_usd (agg : Aggregate) (req : RequestLog) :
    (update_model_stats agg req).total_cost_usd = agg.total_cost_usd := rfl

@[simp] theorem ums_requests_by_day (agg : Aggregate) (req : RequestLog) :
    (update_model_stats agg req).requests_by_day = agg.requests_by_day := rfl

@[simp] theorem ums_tokens_by_day (agg : Aggregate) (req : RequestLog) :
    (update_model_stats agg req).tokens_by_day = agg.tokens_by_day := rfl

@[simp] theorem ums_requests_by_hour (agg : Aggregate) (req : RequestLog) :
    (update_model_stats agg req).requests_by_hour = agg.requests_by_hour := rfl

@[simp] theorem ums_tokens_by_hour (agg : Aggregate) (req : RequestLog) :
    (update_model_stats agg req).tokens_by_hour = agg.tokens_by_hour := rfl

@[simp] theorem ups_total_requests (agg : Aggregate) (req : RequestLog) :
    (update_provider_stats agg req).total_requests = agg.total_requests := rfl

@[simp] theorem ups_total_success_count (agg : Aggregate) (req : RequestLog) :
    (update_provider_stats agg req).total_success_count = agg.total_success_count := rfl

@[simp] theorem ups_total_failure_count (agg : Aggregate) (req : RequestLog) :
    (update_provider_stats agg req).total_failure_count = agg.total_failure_count := rfl

@[simp] theorem ups_total_tokens_in (agg : Aggregate) (req : RequestLog) :
    (update_provider_stats agg req).total_tokens_in = agg.total_tokens_in := rfl

@[simp] theorem ups_total_tokens_out (agg : Aggregate) (req : RequestLog) :
    (update_provider_stats agg req).total_tokens_out = agg.total_tokens_out := rfl

@[simp] theorem ups_total_tokens_cached (agg : Aggregate) (req : RequestLog) :
    (update_provider_stats agg req).total_tokens_cached = agg.total_tokens_cached := rfl

@[simp] theorem ups_total_cost_usd (agg : Aggregate) (req : RequestLog) :
    (update_provider_stats agg req).total_cost_usd = agg.total_cost_usd := rfl

@[simp] theorem ups_requests_by_day (agg : Aggregate) (req : RequestLog) :
    (update_provider_stats agg req).requests_by_day = agg.requests_by_day := rfl

@[simp] theorem ups_tokens_by_day (agg : Aggregate) (req : RequestLog) :
    (update_provider_stats agg req).tokens_by_day = agg.tokens_by_day := rfl

@[simp] theorem ups_requests_by_hour (agg : Aggregate) (req : RequestLog) :
    (update_provider_stats agg req).requests_by_hour = agg.requests_by_hour := rfl

@[simp] theorem ups_tokens_by_hour (agg : Aggregate) (req : RequestLog) :
    (update_provider_stats agg req).tokens_by_hour = agg.tokens_by_hour := rfl

@[simp] theorem smsr_total_requests (agg : Aggregate) (apis : List (String × ApiData)) :
    (sync_model_stats_replace agg apis).total_requests = agg.total_requests := by
  conv_lhs => rw [sync_model_stats_replace_only agg apis]

@[simp] theorem smsr_total_success_count (agg : Aggregate) (apis : List (String × ApiData)) :
    (sync_model_stats_replace agg apis).total_success_count = agg.total_success_count := by
  conv_lhs => rw [sync_model_stats_replace_only agg apis]

@[simp] theorem smsr_total_failure_count (agg : Aggregate) (apis : List (String × ApiData)) :
    (sync_model_stats_replace agg apis).total_failure_count = agg.total_failure_count := by
  conv_lhs => rw [sync_model_stats_replace_only agg apis]

@[simp] theorem smsr_total_tokens_in (agg : Aggregate) (apis : List (String × ApiData)) :
    (sync_model_stats_replace agg apis).total_tokens_in = agg.total_tokens_in := by
  conv_lhs => rw [sync_model_stats_replace_only agg apis]

@[simp] theorem smsr_total_tokens_out (agg : Aggregate) (apis : List (String × ApiData)) :
    (sync_model_stats_replace agg apis).total_tokens_out = agg.total_tokens_out := by
  conv_lhs => rw [sync_model_stats_replace_only agg apis]

@[simp] theorem smsr_total_tokens_cached (agg : Aggregate) (apis : List (String × ApiData)) :
    (sync_model_stats_replace agg apis).total_tokens_cached = agg.total_tokens_cached := by
  conv_lhs => rw [sync_model_stats_replace_only agg apis]

@[simp] theorem smsr_total_cost_usd (agg : Aggregate) (apis : List (String × ApiData)) :
    (sync_model_stats_replace agg apis).total_cost_usd = agg.total_cost_usd := by
  conv_lhs => rw [sync_model_stats_replace_only agg apis]

@[simp] theorem smsr_requests_by_day (agg : Aggregate) (apis : List (String × ApiData)) :
    (sync_model_stats_replace agg apis).requests_by_day = agg.requests_by_day := by
  conv_lhs => rw [sync_model_stats_replace_only agg apis]

@[simp] theorem smsr_tokens_by_day (agg : Aggregate) (apis : List (String × ApiData)) :
    (sync_model_stats_replace agg apis).tokens_by_day = agg.tokens_by_day := by
  conv_lhs => rw [sync_model_stats_replace_only agg apis]

@[simp] theorem smsr_requests_by_hour (agg : Aggregate) (apis : List (String × ApiData)) :
    (sync_model_stats_replace agg apis).requests_by_hour = agg.requests_by_hour := by
  conv_lhs => rw [sync_model_stats_replace_only agg apis]

@[simp] theorem smsr_tokens_by_hour (agg : Aggregate) (apis : List (String × ApiData)) :
    (sync_model_stats_replace agg apis).tokens_by_hour = agg.tokens_by_hour := by
  conv_lhs => rw [sync_model_stats_replace_only agg apis]

@[simp] theorem assign_fold_total_requests (mstats : List (String × ModelStats)) (agg : Aggregate) :
    (mstats.foldl assignModelEntry agg).total_requests = agg.total_requests := by
  conv_lhs => rw [assign_stats_only mstats agg]

@[simp] theorem assign_fold_total_success_count (mstats : List (String × ModelStats)) (agg : Aggregate) :
    (mstats.foldl assignModelEntry agg).total_success_count = agg.total_success_count := by
  conv_lhs => rw [assign_stats_only mstats agg]

@[simp] theorem assign_fold_total_failure_count (mstats : List (String × ModelStats)) (agg : Aggregate) :
    (mstats.foldl assignModelEntry agg).total_failure_count = agg.total_failure_count := by
  conv_lhs => rw [assign_stats_only mstats agg]

@[simp] theorem assign_fold_total_tokens_in (mstats : List (String × ModelStats)) (agg : Aggregate) :
    (mstats.foldl assignModelEntry agg).total_tokens_in = agg.total_tokens_in := by
  conv_lhs => rw [assign_stats_only mstats agg]

@[simp] theorem assign_fold_total_tokens_out (mstats : List (String × ModelStats)) (agg : Aggregate) :
    (mstats.foldl assignModelEntry agg).total_tokens_out = agg.total_tokens_out := by
  conv_lhs => rw [assign_stats_only mstats agg]

@[simp] theorem assign_fold_total_tokens_cached (mstats : List (String × ModelStats)) (agg : Aggregate) :
    (mstats.foldl assignModelEntry agg).total_tokens_cached = agg.total_tokens_cached := by
  conv_lhs => rw [assign_stats_only mstats agg]

@[simp] theorem assign_fold_total_cost_usd (mstats : List (String × ModelStats)) (agg : Aggregate) :
    (mstats.foldl assignModelEntry agg).total_cost_usd = agg.total_cost_usd := by
  conv_lhs => rw [assign_stats_only mstats agg]

@[simp] theorem assign_fold_requests_by_day (mstats : List (String × ModelStats)) (agg : Aggregate) :
    (mstats.foldl assignModelEntry agg).requests_by_day = agg.requests_by_day := by
  conv_lhs => rw [assign_stats_only mstats agg]

@[simp] theorem assign_fold_tokens_by_day (mstats : List (String × ModelStats)) (agg : Aggregate) :
    (mstats.foldl assignModelEntry agg).tokens_by_day = agg.tokens_by_day := by
  conv_lhs => rw [assign_stats_only mstats agg]

@[simp] theorem assign_fold_requests_by_hour (mstats : List (String × ModelStats)) (agg : Aggregate) :
    (mstats.foldl assignModelEntry agg).requests_by_hour = agg.requests_by_hour := by
  conv_lhs => rw [assign_stats_only mstats agg]

@[simp] theorem assign_fold_tokens_by_hour (mstats : List (String × ModelStats)) (agg : Aggregate) :
    (mstats.foldl assignModelEntry agg).tokens_by_hour = agg.tokens_by_hour := by
  conv_lhs => rw [assign_stats_only mstats agg]

/-! ## Field characterizations of the sync merges -/

theorem sync_merge_requests_by_hour (agg : Aggregate) (apis : List (String × ApiData))
    (tin tout tc : Nat) (cost : ℚ) (tbd tbh rbd rbh : List TimeSeriesPoint) :
    (sync_merge_aggregate agg apis tin tout tc cost tbd tbh rbd rbh).requests_by_hour
      = keep_last 168 (sortByLabel (merge_series_overwrite agg.requests_by_hour rbh)) := by
  simp only [sync_merge_aggregate]
  repeat' split
  all_goals simp

theorem sync_merge_tokens_by_hour (agg : Aggregate) (apis : List (String × ApiData))
    (tin tout tc : Nat) (cost : ℚ) (tbd tbh rbd rbh : List TimeSeriesPoint) :
    (sync_merge_aggregate agg apis tin tout tc cost tbd tbh rbd rbh).tokens_by_hour
      = keep_last 168 (sortByLabel (merge_series_overwrite agg.tokens_by_hour tbh)) := by
  simp only [sync_merge_aggregate]
  repeat' split
  all_goals simp

theorem sync_merge_requests_by_day (agg : Aggregate) (apis : List (String × ApiData))
    (tin tout tc : Nat) (cost : ℚ) (tbd tbh rbd rbh : List TimeSeriesPoint) :
    (sync_merge_aggregate agg apis tin tout tc cost tbd tbh rbd rbh).requests_by_day
      = sortByLabel (merge_series_overwrite agg.requests_by_day rbd) := by
  simp only [sync_merge_aggregate]
  repeat' split
  all_goals simp

theorem sync_merge_tokens_by_day (agg : Aggregate) (apis : List (String × ApiData))
    (tin tout tc : Nat) (cost : ℚ) (tbd tbh rbd rbh : List TimeSeriesPoint) :
    (sync_merge_aggregate agg apis tin tout tc cost tbd tbh rbd rbh).tokens_by_day
      = sortByLabel (merge_series_overwrite agg.tokens_by_day tbd) := by
  simp only [sync_merge_aggregate]
  repeat' split
  all_goals simp

theorem sync_merge_total_failure (agg : Aggregate) (apis : List (String × ApiData))
    (tin tout tc : Nat) (cost : ℚ) (tbd tbh rbd rbh : List TimeSeriesPoint) :
    (sync_merge_aggregate agg apis tin tout tc cost tbd tbh rbd rbh).total_failure_count
      = agg.total_failure_count := by
  simp only [sync_merge_aggregate]
  repeat' split
  all_goals simp

theorem sync_merge_total_requests_ge (agg : Aggregate) (apis : List (String × ApiData))
    (tin tout tc : Nat) (cost : ℚ) (tbd tbh rbd rbh : List TimeSeriesPoint) :
    agg.total_requests
      ≤ (sync_merge_aggregate agg apis tin tout tc cost tbd tbh rbd rbh).total_requests := by
  simp only [sync_merge_aggregate]
  repeat' split
  all_goals simp_all
  all_goals omega

theorem sync_merge_total_success_ge (agg : Aggregate) (apis : List (String × ApiData))
    (tin tout tc : Nat) (cost : ℚ) (tbd tbh rbd rbh : List TimeSeriesPoint) :
    agg.total_success_count
      ≤ (sync_merge_aggregate agg apis tin tout tc cost tbd tbh rbd rbh).total_success_count := by
  simp only [sync_merge_aggregate]
  repeat' split
  all_goals simp_all
  all_goals omega

theorem blocking_merge_requests_by_hour (agg : Aggregate) (tr : Nat)
    (mstats : List (String × ModelStats)) (tbd tbh rbd rbh : List TimeSeriesPoint) :
    (blocking_merge_aggregate agg tr mstats tbd tbh rbd rbh).requests_by_hour
      = keep_last 168 (sortByLabel (merge_series_overwrite agg.requests_by_hour rbh)) := by
  simp only [blocking_merge_aggregate]
  repeat' split
  all_goals simp

theorem blocking_merge_tokens_by_hour (agg : Aggregate) (tr : Nat)
    (mstats : List (String × ModelStats)) (tbd tbh rbd rbh : List TimeSeriesPoint) :
    (blocking_merge_aggregate agg tr mstats tbd tbh rbd rbh).tokens_by_hour
      = keep_last 168 (sortByLabel (merge_series_overwrite agg.tokens_by_hour tbh)) := by
  simp only [blocking_merge_aggregate]
  repeat' split
  all_goals simp

theorem blocking_merge_requests_by_day (agg : Aggregate) (tr : Nat)
    (mstats : List (String × ModelStats)) (tbd tbh rbd rbh : List TimeSeriesPoint) :
    (blocking_merge_aggregate agg tr mstats tbd tbh rbd rbh).requests_by_day
      = sortByLabel (merge_series_overwrite agg.requests_by_day rbd) := by
  simp only [blocking_merge_aggregate]
  repeat' split
  all_goals simp

theorem blocking_merge_tokens_by_day (agg : Aggregate) (tr : Nat)
    (mstats : List (String × ModelStats)) (tbd tbh rbd rbh : List TimeSeriesPoint) :
    (blocking_merge_aggregate agg tr mstats tbd tbh rbd rbh).tokens_by_day
      = sortByLabel (merge_series_overwrite agg.tokens_by_day tbd) := by
  simp only [blocking_merge_aggregate]
  repeat' split
  all_goals simp

theorem blocking_merge_total_failure (agg : Aggregate) (tr : Nat)
    (mstats : List (String × ModelStats)) (tbd tbh rbd rbh : List TimeSeriesPoint) :
    (blocking_merge_aggregate agg tr mstats tbd tbh rbd rbh).total_failure_count
      = agg.total_failure_count := by
  simp only [blocking_merge_aggregate]
  repeat' split
  all_goals simp

theorem blocking_merge_total_requests_ge (agg : Aggregate) (tr : Nat)
    (mstats : List (String × ModelStats)) (tbd tbh rbd rbh : List TimeSeriesPoint) :
    agg.total_requests
      ≤ (blocking_merge_aggregate agg tr mstats tbd tbh rbd rbh).total_requests := by
  simp only [blocking_merge_aggregate]
  repeat' split
  all_goals simp_all
  all_goals omega

theorem blocking_merge_total_success_ge (agg : Aggregate) (tr : Nat)
    (mstats : List (String × ModelStats)) (tbd tbh rbd rbh : List TimeSeriesPoint) :
    agg.total_success_count
      ≤ (blocking_merge_aggregate agg tr mstats tbd tbh rbd rbh).total_success_count := by
  simp only [blocking_merge_aggregate]
  repeat' split
  all_goals simp_all
  all_goals omega

/-! ## Tail-loop helper lemmas -/

theorem tail_process_event_dup (today hour_label : String) (history : RequestHistory)
    (agg : Aggregate) (ev : RequestLog) (h : is_dup_event history ev = true) :
    tail_process_event today hour_label history agg ev = ⟨history, agg, []⟩ := by
  simp [tail_process_event, h]

theorem tail_scalars_mono (today hour_label : String) (history : RequestHistory)
    (agg : Aggregate) (ev : RequestLog) :
    agg.total_requests ≤ (tail_process_event today hour_label history agg ev).agg.total_requests ∧
    agg.total_success_count ≤ (tail_process_event today hour_label history agg ev).agg.total_success_count ∧
    agg.total_failure_count ≤ (tail_process_event today hour_label history agg ev).agg.total_failure_count ∧
    agg.total_tokens_in ≤ (tail_process_event today hour_label history agg ev).agg.total_tokens_in ∧
    agg.total_tokens_out ≤ (tail_process_event today hour_label history agg ev).agg.total_tokens_out ∧
    agg.total_tokens_cached ≤ (tail_process_event today hour_label history agg ev).agg.total_tokens_cached ∧
    agg.total_cost_usd ≤ (tail_process_event today hour_label history agg ev).agg.total_cost_usd := by
  cases hd : is_dup_event history ev with
  | true => simp [tail_process_event, hd]
  | false =>
    simp only [tail_process_event, hd, Bool.false_eq_true, if_false]
    split <;> simp

/-! ## Sync result helper lemmas -/

theorem sync_failed_result (today : String) (est : String → Nat → Nat → ℚ)
    (resp : HttpOutcome) (hist : RequestHistory) (agg : Aggregate)
    (h : sync_request_failed resp = true) :
    (sync_usage_from_proxy today est resp hist agg).ret.isOk = false ∧
    (sync_usage_from_proxy today est resp hist agg).history_file = hist ∧
    (sync_usage_from_proxy today est resp hist agg).aggregate_file = agg := by
  rcases resp with _ | ⟨status, body⟩
  · simp [sync_usage_from_proxy, Except.isOk, Except.toBool]
  · by_cases hs : is_success_status status = true
    · rcases body with _ | ⟨⟨u⟩⟩
      · simp [sync_usage_from_proxy, hs, Except.isOk, Except.toBool]
      · rcases u with _ | up
        · simp [sync_usage_from_proxy, hs, Except.isOk, Except.toBool]
        · simp [sync_request_failed, hs] at h
    · have hs' : is_success_status status = false := by
        rcases hb : is_success_status status
        · rfl
        · exact absurd hb hs
      simp [sync_usage_from_proxy, hs', Except.isOk, Except.toBool]

theorem sync_ok_aggregate_file (today : String) (est : String → Nat → Nat → ℚ)
    (status : Nat) (usage : UsagePayload) (hist : RequestHistory) (agg : Aggregate)
    (hs : is_success_status status = true) :
    (sync_usage_from_proxy today est (HttpOutcome.response status (some ⟨some usage⟩)) hist agg).aggregate_file
      = sync_merge_aggregate agg usage.apis (async_totals usage.apis).1
          (async_totals usage.apis).2.1 (async_totals usage.apis).2.2.1
          (async_cost est (async_totals usage.apis).2.2.2)
          (keep_last 14 (parseSeries today false usage.tokens_by_day))
          (keep_last 168 (parseSeries today true usage.tokens_by_hour))
          (keep_last 14 (parseSeries today false usage.requests_by_day))
          (keep_last 168 (parseSeries today true usage.requests_by_hour)) := by
  simp [sync_usage_from_proxy, hs]

theorem blocking_failed_result (today : String) (resp : HttpOutcome) (agg : Aggregate)
    (h : sync_request_failed resp = true) :
    (sync_usage_from_proxy_blocking today resp agg).saved = false ∧
    (sync_usage_from_proxy_blocking today resp agg).aggregate_file = agg := by
  rcases resp with _ | ⟨status, body⟩
  · simp [sync_usage_from_proxy_blocking]
  · by_cases hs : is_success_status status = true
    · rcases body with _ | ⟨⟨u⟩⟩
      · simp [sync_usage_from_proxy_blocking, hs]
      · rcases u with _ | up
        · simp [sync_usage_from_proxy_blocking, hs]
        · simp [sync_request_failed, hs] at h
    · have hs' : is_success_status status = false := by
        rcases hb : is_success_status status
        · rfl
        · exact absurd hb hs
      simp [sync_usage_from_proxy_blocking, hs']

theorem blocking_ok_aggregate_file (today : String) (status : Nat)
    (usage : UsagePayload) (agg : Aggregate) (hs : is_success_status status = true) :
    (sync_usage_from_proxy_blocking today (HttpOutcome.response status (some ⟨some usage⟩)) agg).aggregate_file
      = blocking_merge_aggregate agg (blocking_totals usage.apis).1
          (blocking_totals usage.apis).2
          (parseSeries today false usage.tokens_by_day)
          (parseSeries today true usage.tokens_by_hour)
          (parseSeries today false usage.requests_by_day)
          (parseSeries today true usage.requests_by_hour) := by
  simp [sync_usage_from_proxy_blocking, hs]

theorem sync_merge_total_tokens_in (agg : Aggregate) (apis : List (String × ApiData))
    (tin tout tc : Nat) (cost : ℚ) (tbd tbh rbd rbh : List TimeSeriesPoint) :
    (sync_merge_aggregate agg apis tin tout tc cost tbd tbh rbd rbh).total_tokens_in = tin := by
  simp only [sync_merge_aggregate]
  repeat' split
  all_goals simp

theorem sync_merge_total_tokens_out (agg : Aggregate) (apis : List (String × ApiData))
    (tin tout tc : Nat) (cost : ℚ) (tbd tbh rbd rbh : List TimeSeriesPoint) :
    (sync_merge_aggregate agg apis tin tout tc cost tbd tbh rbd rbh).total_tokens_out = tout := by
  simp only [sync_merge_aggregate]
  repeat' split
  all_goals simp

theorem sync_merge_total_tokens_cached (agg : Aggregate) (apis : List (String × ApiData))
    (tin tout tc : Nat) (cost : ℚ) (tbd tbh rbd rbh : List TimeSeriesPoint) :
    (sync_merge_aggregate agg apis tin tout tc cost tbd tbh rbd rbh).total_tokens_cached = tc := by
  simp only [sync_merge_aggregate]

theorem sync_merge_total_cost (agg : Aggregate) (apis : List (String × ApiData))
    (tin tout tc : Nat) (cost : ℚ) (tbd tbh rbd rbh : List TimeSeriesPoint) :
    (sync_merge_aggregate agg apis tin tout tc cost tbd tbh rbd rbh).total_cost_usd = cost := by
  simp only [sync_merge_aggregate]
  repeat' split
  all_goals simp

theorem blocking_merge_total_tokens_in (agg : Aggregate) (tr : Nat)
    (mstats : List (String × ModelStats)) (tbd tbh rbd rbh : List TimeSeriesPoint) :
    (blocking_merge_aggregate agg tr mstats tbd tbh rbd rbh).total_tokens_in
      = agg.total_tokens_in := by
  simp only [blocking_merge_aggregate]
  repeat' split
  all_goals simp

theorem blocking_merge_total_tokens_out (agg : Aggregate) (tr : Nat)
    (mstats : List (String × ModelStats)) (tbd tbh rbd rbh : List TimeSeriesPoint) :
    (blocking_merge_aggregate agg tr mstats tbd tbh rbd rbh).total_tokens_out
      = agg.total_tokens_out := by
  simp only [blocking_merge_aggregate]
  repeat' split
  all_goals simp

theorem blocking_merge_total_tokens_cached (agg : Aggregate) (tr : Nat)
    (mstats : List (String × ModelStats)) (tbd tbh rbd rbh : List TimeSeriesPoint) :
    (blocking_merge_aggregate agg tr mstats tbd tbh rbd rbh).total_tokens_cached
      = agg.total_tokens_cached := by
  simp only [blocking_merge_aggregate]
  repeat' split
  all_goals simp

theorem blocking_merge_total_cost (agg : Aggregate) (tr : Nat)
    (mstats : List (String × ModelStats)) (tbd tbh rbd rbh : List TimeSeriesPoint) :
    (blocking_merge_aggregate agg tr mstats tbd tbh rbd rbh).total_cost_usd
      = agg.total_cost_usd := by
  simp only [blocking_merge_aggregate]
  repeat' split
  all_goals simp

theorem sync_not_failed_inv (resp : HttpOutcome)
    (h : sync_request_failed resp = false) :
    ∃ status usage, resp = HttpOutcome.response status (some ⟨some usage⟩) ∧
      is_success_status status = true := by
  rcases resp with _ | ⟨status, body⟩
  · simp [sync_request_failed] at h
  · by_cases hs : is_success_status status = true
    · rcases body with _ | ⟨⟨u⟩⟩
      · simp [sync_request_failed, hs] at h
      · rcases u with _ | up
        · simp [sync_request_failed, hs] at h
        · exact ⟨status, up, rfl, hs⟩
    · have hs' : is_success_status status = false := by
        rcases hb : is_success_status status
        · rfl
        · exact absurd hb hs
      simp [sync_request_failed, hs'] at h

/-! ## Claim theorems -/

/-- Claim C1, counterexample: save_request_history does not have the
temp-write-then-rename shape — it is a single direct write to the
canonical history path — and interrupting that write can leave the
history file holding a strict prefix of the new data, so the previously
saved content is not intact. -/
theorem request_history_save_lacks_atomic_shape :
    ¬ atomic_save_shape (save_request_history_ops "history.json" "NEW") "history.json" ∧
    diskSet [("history.json", "OLD")] "history.json" "N"
      ∈ crashStates [("history.json", "OLD")] (save_request_history_ops "history.json" "NEW") ∧
    diskGet (diskSet [("history.json", "OLD")] "history.json" "N") "history.json" = some "N" ∧
    some "N" ≠ (some "OLD" : Option String) ∧
    some "N" ≠ (some "NEW" : Option String) := by
  refine ⟨?_, by decide, by decide, by decide, by decide⟩
  rintro ⟨tmp, data, hne, heq⟩
  simp [save_request_history_ops] at heq

/-- Claim C1, amended: save_request_history trims the request list to the
last 500 entries and writes the serialization directly to the canonical
history path — no temporary file and no rename — while save_aggregate
does follow the atomic temp-write-then-rename discipline. -/
theorem request_history_direct_write_aggregate_atomic :
    (∀ path data, save_request_history_ops path data = [FsOp.write path data]) ∧
    (∀ h : RequestHistory, (save_request_history_trim h).requests = keep_last 500 h.requests) ∧
    (∀ path data, with_extension_json_tmp path ≠ path →
      atomic_save_shape (save_aggregate_ops path data) path) :=
  ⟨fun _ _ => rfl, fun _ => rfl,
   fun path data h => ⟨with_extension_json_tmp path, data, h, rfl⟩⟩

/-- Witness for the amended C1 at the concrete aggregate path. -/
theorem request_history_direct_write_aggregate_atomic_witness :
    with_extension_json_tmp "aggregate.json" ≠ "aggregate.json" ∧
    atomic_save_shape (save_aggregate_ops "aggregate.json" "DATA") "aggregate.json" :=
  ⟨by decide,
   request_history_direct_write_aggregate_atomic.2.2 "aggregate.json" "DATA" (by decide)⟩

/-- Claim C2, counterexample: an authoritative sync whose payload reports
smaller token totals than the aggregate already holds overwrites the
cumulative total_tokens_in downward (100 before, 5 after), so the
cumulative scalars are not monotone under authoritative syncs. -/
theorem sync_overwrites_token_totals_downward :
    exAgg.total_tokens_in = 100 ∧
    (sync_usage_from_proxy "2025-01-01" zeroCost exOkResponse exHistory exAgg).aggregate_file.total_tokens_in = 5 := by
  refine ⟨rfl, ?_⟩
  decide

/-- Claim C2, amended: under the tail-derived fold every cumulative
scalar (requests, successes, failures, tokens in, out, cached, cost) is
non-decreasing.  Under both authoritative syncs total_requests and
total_success_count are non-decreasing (guarded assignments) and
total_failure_count is untouched.  The blocking sync never writes the
token or cost scalars, so they too are unchanged there; only the
sync_usage_from_proxy command replaces total_tokens_in,
total_tokens_out, total_tokens_cached and total_cost_usd with the
payload totals (shown above to possibly decrease). -/
theorem scalar_monotonicity_tail_and_guarded_sync :
    (∀ today hour_label history agg ev,
      agg.total_requests ≤ (tail_process_event today hour_label history agg ev).agg.total_requests ∧
      agg.total_success_count ≤ (tail_process_event today hour_label history agg ev).agg.total_success_count ∧
      agg.total_failure_count ≤ (tail_process_event today hour_label history agg ev).agg.total_failure_count ∧
      agg.total_tokens_in ≤ (tail_process_event today hour_label history agg ev).agg.total_tokens_in ∧
      agg.total_tokens_out ≤ (tail_process_event today hour_label history agg ev).agg.total_tokens_out ∧
      agg.total_tokens_cached ≤ (tail_process_event today hour_label history agg ev).agg.total_tokens_cached ∧
      agg.total_cost_usd ≤ (tail_process_event today hour_label history agg ev).agg.total_cost_usd) ∧
    (∀ today est resp hist agg,
      agg.total_requests ≤ (sync_usage_from_proxy today est resp hist agg).aggregate_file.total_requests ∧
      agg.total_success_count ≤ (sync_usage_from_proxy today est resp hist agg).aggregate_file.total_success_count ∧
      (sync_usage_from_proxy today est resp hist agg).aggregate_file.total_failure_count = agg.total_failure_count) ∧
    (∀ today resp agg,
      agg.total_requests ≤ (sync_usage_from_proxy_blocking today resp agg).aggregate_file.total_requests ∧
      agg.total_success_count ≤ (sync_usage_from_proxy_blocking today resp agg).aggregate_file.total_success_count ∧
      (sync_usage_from_proxy_blocking today resp agg).aggregate_file.total_failure_count = agg.total_failure_count ∧
      (sync_usage_from_proxy_blocking today resp agg).aggregate_file.total_tokens_in = agg.total_tokens_in ∧
      (sync_usage_from_proxy_blocking today resp agg).aggregate_file.total_tokens_out = agg.total_tokens_out ∧
      (sync_usage_from_proxy_blocking today resp agg).aggregate_file.total_tokens_cached = agg.total_tokens_cached ∧
      (sync_usage_from_proxy_blocking today resp agg).aggregate_file.total_cost_usd = agg.total_cost_usd) ∧
    (∀ today est status usage hist agg, is_success_status status = true →
      (sync_usage_from_proxy today est (HttpOutcome.response status (some ⟨some usage⟩)) hist agg).aggregate_file.total_tokens_in
        = (async_totals usage.apis).1 ∧
      (sync_usage_from_proxy today est (HttpOutcome.response status (some ⟨some usage⟩)) hist agg).aggregate_file.total_tokens_out
        = (async_totals usage.apis).2.1 ∧
      (sync_usage_from_proxy today est (HttpOutcome.response status (some ⟨some usage⟩)) hist agg).aggregate_file.total_tokens_cached
        = (async_totals usage.apis).2.2.1 ∧
      (sync_usage_from_proxy today est (HttpOutcome.response status (some ⟨some usage⟩)) hist agg).aggregate_file.total_cost_usd
        = async_cost est (async_totals usage.apis).2.2.2) := by
  refine ⟨fun today hour_label history agg ev => tail_scalars_mono today hour_label history agg ev, ?_, ?_, ?_⟩
  · intro today est resp hist agg
    by_cases h : sync_request_failed resp = true
    · obtain ⟨-, -, ha⟩ := sync_failed_result today est resp hist agg h
      rw [ha]
      exact ⟨le_refl _, le_refl _, rfl⟩
    · have h' : sync_request_failed resp = false := by
        rcases hb : sync_request_failed resp
        · rfl
        · exact absurd hb h
      obtain ⟨status, usage, rfl, hs⟩ := sync_not_failed_inv resp h'
      rw [sync_ok_aggregate_file today est status usage hist agg hs]
      exact ⟨sync_merge_total_requests_ge _ _ _ _ _ _ _ _ _ _,
             sync_merge_total_success_ge _ _ _ _ _ _ _ _ _ _,
             sync_merge_total_failure _ _ _ _ _ _ _ _ _ _⟩
  · intro today resp agg
    by_cases h : sync_request_failed resp = true
    · obtain ⟨-, ha⟩ := blocking_failed_result today resp agg h
      rw [ha]
      exact ⟨le_refl _, le_refl _, rfl, rfl, rfl, rfl, rfl⟩
    · have h' : sync_request_failed resp = false := by
        rcases hb : sync_request_failed resp
        · rfl
        · exact absurd hb h
      obtain ⟨status, usage, rfl, hs⟩ := sync_not_failed_inv resp h'
      rw [blocking_ok_aggregate_file today status usage agg hs]
      exact ⟨blocking_merge_total_requests_ge _ _ _ _ _ _ _,
             blocking_merge_total_success_ge _ _ _ _ _ _ _,
             blocking_merge_total_failure _ _ _ _ _ _ _,
             blocking_merge_total_tokens_in _ _ _ _ _ _ _,
             blocking_merge_total_tokens_out _ _ _ _ _ _ _,
             blocking_merge_total_tokens_cached _ _ _ _ _ _ _,
             blocking_merge_total_cost _ _ _ _ _ _ _⟩
  · intro today est status usage hist agg hs
    rw [sync_ok_aggregate_file today est status usage hist agg hs]
    exact ⟨sync_merge_total_tokens_in _ _ _ _ _ _ _ _ _ _,
           sync_merge_total_tokens_out _ _ _ _ _ _ _ _ _ _,
           sync_merge_total_tokens_cached _ _ _ _ _ _ _ _ _ _,
           sync_merge_total_cost _ _ _ _ _ _ _ _ _ _⟩

/-- Witness for the amended C2: a concrete successful sync replaces the
aggregate token totals with the payload totals (5 input tokens here). -/
theorem scalar_monotonicity_tail_and_guarded_sync_witness :
    is_success_status 200 = true ∧
    (sync_usage_from_proxy "2025-01-01" zeroCost (HttpOutcome.response 200 (some ⟨some exPayload⟩)) exHistory exAgg).aggregate_file.total_tokens_in
      = (async_totals exPayload.apis).1 ∧
    (async_totals exPayload.apis).1 = 5 :=
  ⟨by decide,
   (scalar_monotonicity_tail_and_guarded_sync.2.2.2 "2025-01-01" zeroCost 200
     exPayload exHistory exAgg (by decide)).1,
   by decide⟩

/-- Claim C3: merging an authoritative payload overwrites the value at
each payload label (the payload value wins, it is not added), while a
tail-derived increment adds to the existing value, appending a fresh
point when the label is absent. -/
theorem timeseries_merge_overwrite_vs_add (s pts : List TimeSeriesPoint)
    (pt : TimeSeriesPoint) (hnd : (pts.map TimeSeriesPoint.label).Nodup)
    (hm : pt ∈ pts) :
    lookupLabel (merge_series_overwrite s pts) pt.label = some pt.value ∧
    (∀ (s' : List TimeSeriesPoint) (label : String) (inc : Nat),
      lookupLabel (update_timeseries s' label inc) label
        = some ((lookupLabel s' label).getD 0 + inc)) :=
  ⟨lookupLabel_merge_series pts s pt hnd hm,
   fun s' label inc => lookupLabel_update_timeseries s' label inc⟩

/-- Witness for C3 at the spec's own example: a tail-derived 5 merged
with an authoritative 8 ends at 8, not 13; the tail-derived add on the
same bucket would give 13. -/
theorem timeseries_merge_overwrite_vs_add_witness :
    lookupLabel (merge_series_overwrite [⟨"2025-01-01", 5⟩] [⟨"2025-01-01", 8⟩]) "2025-01-01" = some 8 ∧
    lookupLabel (update_timeseries [⟨"2025-01-01", 5⟩] "2025-01-01" 8) "2025-01-01" = some 13 := by
  have h := timeseries_merge_overwrite_vs_add [⟨"2025-01-01", 5⟩] [⟨"2025-01-01", 8⟩]
    ⟨"2025-01-01", 8⟩ (by decide) (by decide)
  exact ⟨h.1, by simpa using h.2 [⟨"2025-01-01", 5⟩] "2025-01-01" 8⟩

/-- Claim C4: save_aggregate writes the serialized aggregate to the
temporary sibling and renames it over the canonical path; every crash
point leaves the canonical path holding either the old content or the
complete new content, every injected failure surfaces an error to the
caller with the canonical path still holding the old content, and a
successful run installs the new content. -/
theorem save_aggregate_atomic_ok (path data junk : String) (fs : Disk)
    (hne : with_extension_json_tmp path ≠ path) :
    (∀ fs' ∈ crashStates fs (save_aggregate_ops path data),
      diskGet fs' path = diskGet fs path ∨ diskGet fs' path = some data) ∧
    (∀ out : SaveOutcome, out ≠ SaveOutcome.succeeds →
      (save_aggregate_run fs path data junk out).1.isOk = false ∧
      diskGet (save_aggregate_run fs path data junk out).2 path = diskGet fs path) ∧
    (save_aggregate_run fs path data junk SaveOutcome.succeeds).1.isOk = true ∧
    diskGet (save_aggregate_run fs path data junk SaveOutcome.succeeds).2 path = some data := by
  refine ⟨?_, ?_, rfl, ?_⟩
  · intro fs' hmem
    simp only [save_aggregate_ops, crashStates, List.mem_cons, List.mem_append,
      List.mem_map, List.mem_range, List.not_mem_nil, or_false, List.nil_append] at hmem
    rcases hmem with (rfl | ⟨k, -, rfl⟩) | rfl | rfl
    · exact Or.inl rfl
    · exact Or.inl (diskGet_set_ne fs path _ _ hne)
    · exact Or.inl (by simp only [applyOp]; exact diskGet_set_ne fs path _ _ hne)
    · right
      simp only [applyOp, diskGet_set_self]
      rw [diskGet_del_ne _ _ _ hne, diskGet_set_self]
  · intro out hout
    cases out with
    | serializeFails => exact ⟨rfl, rfl⟩
    | writeFails => exact ⟨rfl, diskGet_set_ne fs path _ _ hne⟩
    | renameFails => exact ⟨rfl, diskGet_set_ne fs path _ _ hne⟩
    | succeeds => exact absurd rfl hout
  · simp only [save_aggregate_run, applyOp, diskGet_set_self]
    rw [diskGet_del_ne _ _ _ hne, diskGet_set_self]

/-- Witness for C4 at a concrete disk: a successful save installs the new
aggregate and a failed rename leaves the old one. -/
theorem save_aggregate_atomic_ok_witness :
    diskGet (save_aggregate_run [("aggregate.json", "OLD")] "aggregate.json" "NEW" "JJ"
      SaveOutcome.succeeds).2 "aggregate.json" = some "NEW" ∧
    (save_aggregate_run [("aggregate.json", "OLD")] "aggregate.json" "NEW" "JJ"
      SaveOutcome.renameFails).1.isOk = false ∧
    diskGet (save_aggregate_run [("aggregate.json", "OLD")] "aggregate.json" "NEW" "JJ"
      SaveOutcome.renameFails).2 "aggregate.json"
      = diskGet [("aggregate.json", "OLD")] "aggregate.json" :=
  ⟨(save_aggregate_atomic_ok "aggregate.json" "NEW" "JJ" _ (by decide)).2.2.2,
   ((save_aggregate_atomic_ok "aggregate.json" "NEW" "JJ" _ (by decide)).2.1
     SaveOutcome.renameFails (by decide)).1,
   ((save_aggregate_atomic_ok "aggregate.json" "NEW" "JJ" _ (by decide)).2.1
     SaveOutcome.renameFails (by decide)).2⟩

/-- Claim C5, counterexample: the blocking authoritative sync returns
unit, so a failing run hands its caller exactly the same value as a
successful run — the caller is not informed of the error (the failing run
still merges nothing and performs no save). -/
theorem blocking_sync_failure_silent :
    (sync_usage_from_proxy_blocking "2025-01-01" HttpOutcome.netError exAgg).ret
      = (sync_usage_from_proxy_blocking "2025-01-01" exOkResponse exAgg).ret ∧
    (sync_usage_from_proxy_blocking "2025-01-01" HttpOutcome.netError exAgg).saved = false ∧
    (sync_usage_from_proxy_blocking "2025-01-01" HttpOutcome.netError exAgg).aggregate_file = exAgg ∧
    (sync_usage_from_proxy_blocking "2025-01-01" exOkResponse exAgg).saved = true := by
  refine ⟨rfl, rfl, rfl, ?_⟩
  decide

/-- Claim C5, amended: a failing sync (network error, non-success status,
malformed JSON, missing usage field) applies no partial merge in either
variant — the history and aggregate files are exactly as before — and the
sync_usage_from_proxy command additionally returns an error to its
caller, while the blocking variant returns unit and merely skips the
save. -/
theorem sync_failure_no_partial_merge (today : String)
    (est : String → Nat → Nat → ℚ) (resp : HttpOutcome)
    (hist : RequestHistory) (agg : Aggregate)
    (h : sync_request_failed resp = true) :
    ((sync_usage_from_proxy today est resp hist agg).ret.isOk = false ∧
     (sync_usage_from_proxy today est resp hist agg).history_file = hist ∧
     (sync_usage_from_proxy today est resp hist agg).aggregate_file = agg) ∧
    ((sync_usage_from_proxy_blocking today resp agg).saved = false ∧
     (sync_usage_from_proxy_blocking today resp agg).aggregate_file = agg) :=
  ⟨sync_failed_result today est resp hist agg h,
   blocking_failed_result today resp agg h⟩

/-- Witness for the amended C5 at a concrete network error. -/
theorem sync_failure_no_partial_merge_witness :
    (sync_usage_from_proxy "2025-01-01" zeroCost HttpOutcome.netError exHistory exAgg).ret.isOk = false ∧
    (sync_usage_from_proxy "2025-01-01" zeroCost HttpOutcome.netError exHistory exAgg).history_file = exHistory ∧
    (sync_usage_from_proxy "2025-01-01" zeroCost HttpOutcome.netError exHistory exAgg).aggregate_file = exAgg :=
  (sync_failure_no_partial_merge "2025-01-01" zeroCost HttpOutcome.netError
    exHistory exAgg (by decide)).1

/-- Claim C6, counterexample: the add_request_to_history command
deduplicates by id only, so two events with the same timestamp and path
but different ids are both kept — the claimed (timestamp, path)
deduplication does not hold on that append path. -/
theorem history_command_keeps_equal_timestamp_path :
    exEvent.timestamp = exEventOtherId.timestamp ∧
    exEvent.path = exEventOtherId.path ∧
    exEvent.id ≠ exEventOtherId.id ∧
    (add_request_to_history zeroCost
      (add_request_to_history zeroCost emptyHistory exEvent).1 exEventOtherId).1.requests
      = [exEvent, exEventOtherId] := by
  refine ⟨rfl, rfl, by decide, ?_⟩
  decide

/-- Claim C6, amended: the tail worker deduplicates its ring append by
the (timestamp, path) pair and trims to 500; the add_request_to_history
command deduplicates by id only and likewise trims to 500. -/
theorem ring_dedup_semantics :
    (∀ today hour_label history agg ev, is_dup_event history ev = true →
      (tail_process_event today hour_label history agg ev).history = history) ∧
    (∀ today hour_label history agg ev, is_dup_event history ev = false →
      (tail_process_event today hour_label history agg ev).history.requests
        = keep_last 500 (history.requests ++ [ev]) ∧
      (tail_process_event today hour_label history agg ev).history.requests.length ≤ 500) ∧
    (∀ est history request,
      history.requests.any (fun r => r.id = request.id) = true →
      (add_request_to_history est history request).1.requests = history.requests) ∧
    (∀ est history request,
      history.requests.any (fun r => r.id = request.id) = false →
      (add_request_to_history est history request).1.requests
        = keep_last 500 (history.requests ++ [request]) ∧
      (add_request_to_history est history request).1.requests.length ≤ 500) := by
  refine ⟨?_, ?_, ?_, ?_⟩
  · intro today hour_label history agg ev h
    rw [tail_process_event_dup today hour_label history agg ev h]
  · intro today hour_label history agg ev h
    constructor
    · simp [tail_process_event, h]
    · simp only [tail_process_event, h, Bool.false_eq_true, if_false]
      exact length_keep_last_le 500 _
  · intro est history request h
    simp [add_request_to_history, h]
  · intro est history request h
    constructor
    · simp [add_request_to_history, h]
    · simp only [add_request_to_history, h, Bool.false_eq_true, not_false_iff, if_true]
      exact length_keep_last_le 500 _

/-- Witness for the amended C6: the tail drop of a duplicate, and the
command keeping an event with a duplicate id unchanged. -/
theorem ring_dedup_semantics_witness :
    (tail_process_event "2025-01-01" "2025-01-01T10" exHistory exAgg exEventOtherId).history = exHistory ∧
    (add_request_to_history zeroCost
      (add_request_to_history zeroCost emptyHistory exEvent).1 exEvent).1.requests
      = (add_request_to_history zeroCost emptyHistory exEvent).1.requests :=
  ⟨ring_dedup_semantics.1 "2025-01-01" "2025-01-01T10" exHistory exAgg exEventOtherId (by decide),
   ring_dedup_semantics.2.2.1 zeroCost _ exEvent (by decide)⟩

/-- Claim C7: after every merge into the aggregate — the tail fold on a
fresh event and the two authoritative syncs — both hourly series hold at
most 168 points, while the daily series are never trimmed (their length
never shrinks across a merge). -/
theorem hourly_capped_daily_untrimmed :
    (∀ today hour_label history agg ev, is_dup_event history ev = false →
      ((tail_process_event today hour_label history agg ev).agg.requests_by_hour.length ≤ 168 ∧
       (tail_process_event today hour_label history agg ev).agg.tokens_by_hour.length ≤ 168) ∧
      (agg.requests_by_day.length
          ≤ (tail_process_event today hour_label history agg ev).agg.requests_by_day.length ∧
       agg.tokens_by_day.length
          ≤ (tail_process_event today hour_label history agg ev).agg.tokens_by_day.length)) ∧
    (∀ today est status usage hist agg, is_success_status status = true →
      (((sync_usage_from_proxy today est (HttpOutcome.response status (some ⟨some usage⟩)) hist agg).aggregate_file.requests_by_hour.length ≤ 168 ∧
        (sync_usage_from_proxy today est (HttpOutcome.response status (some ⟨some usage⟩)) hist agg).aggregate_file.tokens_by_hour.length ≤ 168) ∧
       (agg.requests_by_day.length
          ≤ (sync_usage_from_proxy today est (HttpOutcome.response status (some ⟨some usage⟩)) hist agg).aggregate_file.requests_by_day.length ∧
        agg.tokens_by_day.length
          ≤ (sync_usage_from_proxy today est (HttpOutcome.response status (some ⟨some usage⟩)) hist agg).aggregate_file.tokens_by_day.length))) ∧
    (∀ today status usage agg, is_success_status status = true →
      (((sync_usage_from_proxy_blocking today (HttpOutcome.response status (some ⟨some usage⟩)) agg).aggregate_file.requests_by_hour.length ≤ 168 ∧
        (sync_usage_from_proxy_blocking today (HttpOutcome.response status (some ⟨some usage⟩)) agg).aggregate_file.tokens_by_hour.length ≤ 168) ∧
       (agg.requests_by_day.length
          ≤ (sync_usage_from_proxy_blocking today (HttpOutcome.response status (some ⟨some usage⟩)) agg).aggregate_file.requests_by_day.length ∧
        agg.tokens_by_day.length
          ≤ (sync_usage_from_proxy_blocking today (HttpOutcome.response status (some ⟨some usage⟩)) agg).aggregate_file.tokens_by_day.length))) := by
  refine ⟨?_, ?_, ?_⟩
  · intro today hour_label history agg ev h
    refine ⟨⟨?_, ?_⟩, ?_, ?_⟩ <;>
      (simp only [tail_process_event, h, Bool.false_eq_true, if_false]
       split <;> simp [length_keep_last_le, length_update_timeseries_ge])
  · intro today est status usage hist agg hs
    rw [sync_ok_aggregate_file today est status usage hist agg hs]
    refine ⟨⟨?_, ?_⟩, ?_, ?_⟩
    · rw [sync_merge_requests_by_hour]
      exact length_keep_last_le 168 _
    · rw [sync_merge_tokens_by_hour]
      exact length_keep_last_le 168 _
    · rw [sync_merge_requests_by_day, length_sortByLabel]
      exact length_merge_series_ge _ _
    · rw [sync_merge_tokens_by_day, length_sortByLabel]
      exact length_merge_series_ge _ _
  · intro today status usage agg hs
    rw [blocking_ok_aggregate_file today status usage agg hs]
    refine ⟨⟨?_, ?_⟩, ?_, ?_⟩
    · rw [blocking_merge_requests_by_hour]
      exact length_keep_last_le 168 _
    · rw [blocking_merge_tokens_by_hour]
      exact length_keep_last_le 168 _
    · rw [blocking_merge_requests_by_day, length_sortByLabel]
      exact length_merge_series_ge _ _
    · rw [blocking_merge_tokens_by_day, length_sortByLabel]
      exact length_merge_series_ge _ _

/-- Witness for C7 at a concrete successful sync. -/
theorem hourly_capped_daily_untrimmed_witness :
    (((sync_usage_from_proxy "2025-01-01" zeroCost (HttpOutcome.response 200 (some ⟨some exPayload⟩)) exHistory exAgg).aggregate_file.requests_by_hour.length ≤ 168 ∧
      (sync_usage_from_proxy "2025-01-01" zeroCost (HttpOutcome.response 200 (some ⟨some exPayload⟩)) exHistory exAgg).aggregate_file.tokens_by_hour.length ≤ 168) ∧
     (exAgg.requests_by_day.length
        ≤ (sync_usage_from_proxy "2025-01-01" zeroCost (HttpOutcome.response 200 (some ⟨some exPayload⟩)) exHistory exAgg).aggregate_file.requests_by_day.length ∧
      exAgg.tokens_by_day.length
        ≤ (sync_usage_from_proxy "2025-01-01" zeroCost (HttpOutcome.response 200 (some ⟨some exPayload⟩)) exHistory exAgg).aggregate_file.tokens_by_day.length)) :=
  hourly_capped_daily_untrimmed.2.1 "2025-01-01" zeroCost 200 exPayload exHistory exAgg (by decide)

/-- Claim C8: duration parsing is total — strings with neither suffix
yield 0 — and the spec's examples evaluate as stated: 6.656s is 6656 ms,
65ms is 65 ms, garbage is 0 ms. -/
theorem duration_parsing_total_and_examples :
    (∀ s, strEndsWith s "ms" = false → strEndsWith s "s" = false →
      parse_duration s = 0) ∧
    parse_duration "6.656s" = 6656 ∧
    parse_duration "65ms" = 65 ∧
    parse_duration "garbage" = 0 := by
  refine ⟨?_, by decide, by decide, by decide⟩
  intro s h1 h2
  simp [parse_duration, h1, h2]

/-- Witness for C8 at a concrete suffix-free string. -/
theorem duration_parsing_total_and_examples_witness :
    strEndsWith "64k" "ms" = false ∧ strEndsWith "64k" "s" = false ∧
    parse_duration "64k" = 0 :=
  ⟨by decide, by decide,
   duration_parsing_total_and_examples.1 "64k" (by decide) (by decide)⟩

/-- Claim C9: in the provider-resolution expression used by both parser
branches, model-based detection takes precedence — whenever it yields
anything but unknown that value is the provider regardless of the path —
and only when it yields unknown is path-based detection consulted, with
unknown as the final fallback. -/
theorem provider_resolution_precedence (dm : String → String)
    (dp : String → Option String) (model path : String) :
    (dm model ≠ "unknown" → resolve_provider dm dp model path = dm model) ∧
    (dm model = "unknown" → ∀ pr, dp path = some pr →
      resolve_provider dm dp model path = pr) ∧
    (dm model = "unknown" → dp path = none →
      resolve_provider dm dp model path = "unknown") := by
  refine ⟨?_, ?_, ?_⟩
  · intro h
    simp [resolve_provider, h]
  · intro h pr hp
    simp [resolve_provider, h, hp]
  · intro h hp
    simp [resolve_provider, h, hp]

/-- Witness for C9 at the spec's example: a claude-class model on an
openai-looking path resolves from the model, not the path. -/
theorem provider_resolution_precedence_witness :
    spec_detect_provider_from_model "claude-x" = "anthropic" ∧
    spec_detect_provider_from_path "/v1/some/openai/route" = some "openai" ∧
    resolve_provider spec_detect_provider_from_model spec_detect_provider_from_path
      "claude-x" "/v1/some/openai/route" = "anthropic" := by
  refine ⟨by decide, by decide, ?_⟩
  have h := (provider_resolution_precedence spec_detect_provider_from_model
    spec_detect_provider_from_path "claude-x" "/v1/some/openai/route").1 (by decide)
  rw [h]
  decide

/-- Claim C10: when the parsed event's (timestamp, path) pair already
occurs in the loaded history, the tail worker performs no aggregate
update and no save at all — history, aggregate and the issued save list
are exactly the input state. -/
theorem tail_duplicate_preserves_everything (today hour_label : String)
    (history : RequestHistory) (agg : Aggregate) (ev : RequestLog)
    (h : is_dup_event history ev = true) :
    tail_process_event today hour_label history agg ev = ⟨history, agg, []⟩ :=
  tail_process_event_dup today hour_label history agg ev h

/-- Witness for C10 at a concrete duplicate delivery. -/
theorem tail_duplicate_preserves_everything_witness :
    is_dup_event exHistory exEventOtherId = true ∧
    tail_process_event "2025-01-01" "2025-01-01T10" exHistory exAgg exEventOtherId
      = ⟨exHistory, exAgg, []⟩ :=
  ⟨by decide,
   tail_duplicate_preserves_everything "2025-01-01" "2025-01-01T10" exHistory exAgg
     exEventOtherId (by decide)⟩
